import Mathlib

/-
Verification of the marimo executor service (notebook cell execution runtime).

This file gives a shallow embedding, in Lean 4, of the Python code of the
marimo-executor-service: the security validator (service/security.py), the
session state with its cell/variable/import/widget trackers and cleanup
passes (service/session.py), the widget registry and output marshalling of
the cell executor (service/executor.py), the gRPC handler for widget value
updates (main.py), and the session manager (service/session.py).

Python dictionaries are modelled as association lists preserving insertion
order (Python dicts are ordered); `dset` is dict assignment (update in place
or append), `ddel` is key deletion.  Python objects held in the interpreter
namespace are modelled by `Obj`: an identity (`oid`, standing for the CPython
object id, used by the tracker's `is not` comparisons), the optional `_id`
attribute read by the widget sweep, and the outcomes of `str()` / `repr()`
(`repr` may raise, hence an `Option`).  Python scalar values travelling
through the widget machinery are modelled by `PyVal`; numbers are rationals
(the concrete numbers exercised here are small integers, exactly
representable in every float semantics).  Library calls whose behaviour is
outside the repository (json.loads, float(), md5, matplotlib rendering,
MinIO stat) are oracle parameters; theorems hold for every oracle and
witnesses instantiate them concretely.
-/

set_option autoImplicit false

namespace MarimoExec

/-! ## Python dictionaries as ordered association lists -/

/-- First-match lookup, `m[k]` / `m.get(k)`. -/
def dlookup {α : Type} : List (String × α) → String → Option α
  | [], _ => Option.none
  | (k', v) :: rest, k => if k' = k then Option.some v else dlookup rest k

/-- Dict assignment `m[k] = v`: update in place if the key exists, else append. -/
def dset {α : Type} : List (String × α) → String → α → List (String × α)
  | [], k, v => [(k, v)]
  | (k', v') :: rest, k, v =>
    if k' = k then (k, v) :: rest else (k', v') :: dset rest k v

/-- Dict deletion `del m[k]` (keys are unique in a Python dict). -/
def ddel {α : Type} (m : List (String × α)) (k : String) : List (String × α) :=
  m.filter (fun p => p.1 != k)

/-- The key list of a dict, in insertion order. -/
def dkeys {α : Type} (m : List (String × α)) : List String :=
  m.map (·.1)

/-- Membership test `k in m`. -/
def dmem {α : Type} (m : List (String × α)) (k : String) : Bool :=
  (dlookup m k).isSome

/-! ## Python scalar values -/

/-- Python values flowing through the widget machinery (None, bool, numbers,
strings, lists).  Numbers are rationals. -/
inductive PyVal where
  | pyNone : PyVal
  | pyBool (b : Bool) : PyVal
  | pyNum (q : ℚ) : PyVal
  | pyStr (s : String) : PyVal
  | pyList (l : List PyVal) : PyVal

/-- A Python object in the interpreter namespace: its identity (`id(obj)`,
used by the tracker's `is not` test), its optional `_id` attribute (read by
`_extract_widget_id_from_variable` and the widget sweep of
`_cleanup_cell_widgets`), and the outcomes of `str()` and `repr()` on it
(`repr` may raise: `none` models that). -/
structure Obj where
  oid : Nat := 0
  idAttr : Option String := Option.none
  strRepr : String := ""
  reprRepr : Option String := Option.none
deriving DecidableEq, Repr

/-- An output record produced by the executor (a dict with keys `type`,
`content`, `mime_type` and sometimes `data_type`). -/
structure Output where
  otype : String
  content : String
  mime : String
  dataType : Option String := Option.none
deriving DecidableEq, Repr

/-! ## Security validator (service/security.py, config.py)

The Python abstract syntax tree is embedded as `PyExpr`/`PyStmt`/`PyModule`,
with exactly the node kinds the validator and the session's static analyses
inspect (imports, calls, names, assignments, function bodies).  `ast.walk`
is the breadth-first traversal `walk`.  `ast.parse` is an oracle
`Except String PyModule` (the error carries `str(e)` of the SyntaxError). -/

/-- Python expressions (the fragment the service's AST analyses look at). -/
inductive PyExpr where
  | nameE (id : String) : PyExpr
  | constE : PyExpr
  | callE (func : PyExpr) (args : List PyExpr) : PyExpr
  | attributeE (val : PyExpr) (attr : String) : PyExpr

/-- Python statements (the fragment the service's AST analyses look at).
`importS` carries the dotted module names of an `import a.b, c` statement;
`importFromS` the optional dotted module of a `from m import n` statement. -/
inductive PyStmt where
  | importS (names : List String) : PyStmt
  | importFromS (module : Option String) (names : List String) : PyStmt
  | exprS (e : PyExpr) : PyStmt
  | assignS (targets : List PyExpr) (value : PyExpr) : PyStmt
  | augAssignS (target : PyExpr) (value : PyExpr) : PyStmt
  | annAssignS (target : PyExpr) (value : Option PyExpr) : PyStmt
  | functionDefS (name : String) (body : List PyStmt) : PyStmt

/-- A parsed module (`ast.parse` result). -/
structure PyModule where
  body : List PyStmt

/-- A node yielded by `ast.walk`. -/
inductive PyNode where
  | mod (m : PyModule) : PyNode
  | stmt (s : PyStmt) : PyNode
  | expr (e : PyExpr) : PyNode

mutual

/-- Size of an expression (for the termination of the breadth-first walk). -/
def exprSize : PyExpr → Nat
  | .nameE _ => 1
  | .constE => 1
  | .callE f args => 1 + exprSize f + exprListSize args
  | .attributeE v _ => 1 + exprSize v

/-- Total size of a list of expressions. -/
def exprListSize : List PyExpr → Nat
  | [] => 0
  | e :: r => exprSize e + exprListSize r

end

mutual

/-- Size of a statement (for the termination of the breadth-first walk). -/
def stmtSize : PyStmt → Nat
  | .importS _ => 1
  | .importFromS _ _ => 1
  | .exprS e => 1 + exprSize e
  | .assignS ts v => 1 + exprListSize ts + exprSize v
  | .augAssignS t v => 1 + exprSize t + exprSize v
  | .annAssignS t v => 1 + exprSize t + (match v with | Option.some e => exprSize e | Option.none => 0)
  | .functionDefS _ b => 1 + stmtListSize b

/-- Total size of a list of statements. -/
def stmtListSize : List PyStmt → Nat
  | [] => 0
  | s :: r => stmtSize s + stmtListSize r

end

/-- Size of a walk node. -/
def nodeSize : PyNode → Nat
  | .mod m => 1 + stmtListSize m.body
  | .stmt s => stmtSize s
  | .expr e => exprSize e

/-- The direct AST children of a node, in field order, as `ast.iter_child_nodes`
yields them (module: its body; statements: their expression / body fields;
expressions: function then arguments).  `alias` leaf nodes of import
statements are omitted: they are neither imports nor calls, so the validator
ignores them. -/
def children : PyNode → List PyNode
  | .mod m => m.body.map .stmt
  | .stmt (.importS _) => []
  | .stmt (.importFromS _ _) => []
  | .stmt (.exprS e) => [.expr e]
  | .stmt (.assignS ts v) => ts.map .expr ++ [.expr v]
  | .stmt (.augAssignS t v) => [.expr t, .expr v]
  | .stmt (.annAssignS t v) =>
    .expr t :: (match v with | Option.some e => [.expr e] | Option.none => [])
  | .stmt (.functionDefS _ b) => b.map .stmt
  | .expr (.nameE _) => []
  | .expr .constE => []
  | .expr (.callE f args) => .expr f :: args.map .expr
  | .expr (.attributeE v _) => [.expr v]

theorem sum_map_expr_nodes (l : List PyExpr) :
    ((l.map PyNode.expr).map nodeSize).sum = exprListSize l := by
  induction l with
  | nil => simp [exprListSize]
  | cons e r ih =>
    rw [List.map_cons, List.map_cons, List.sum_cons, ih]
    simp [exprListSize, nodeSize]

theorem sum_map_stmt_nodes (l : List PyStmt) :
    ((l.map PyNode.stmt).map nodeSize).sum = stmtListSize l := by
  induction l with
  | nil => simp [stmtListSize]
  | cons s r ih =>
    rw [List.map_cons, List.map_cons, List.sum_cons, ih]
    simp [stmtListSize, nodeSize]

theorem children_size_lt (n : PyNode) :
    ((children n).map nodeSize).sum < nodeSize n := by
  cases n with
  | mod m =>
    show ((m.body.map PyNode.stmt).map nodeSize).sum < 1 + stmtListSize m.body
    rw [sum_map_stmt_nodes]
    omega
  | stmt s =>
    cases s with
    | importS names => simp [children, nodeSize, stmtSize]
    | importFromS m names => simp [children, nodeSize, stmtSize]
    | exprS e => simp [children, nodeSize, stmtSize]
    | assignS ts v =>
      show (((ts.map PyNode.expr) ++ [PyNode.expr v]).map nodeSize).sum
        < 1 + exprListSize ts + exprSize v
      rw [List.map_append, List.sum_append, sum_map_expr_nodes]
      simp only [List.map_cons, List.map_nil, List.sum_cons, List.sum_nil, nodeSize]
      omega
    | augAssignS t v =>
      show (([PyNode.expr t, PyNode.expr v]).map nodeSize).sum
        < 1 + exprSize t + exprSize v
      simp only [List.map_cons, List.map_nil, List.sum_cons, List.sum_nil, nodeSize]
      omega
    | annAssignS t v =>
      cases v with
      | none => simp [children, nodeSize, stmtSize]
      | some e =>
        show (([PyNode.expr t, PyNode.expr e]).map nodeSize).sum
          < 1 + exprSize t + exprSize e
        simp only [List.map_cons, List.map_nil, List.sum_cons, List.sum_nil, nodeSize]
        omega
    | functionDefS name b =>
      show ((b.map PyNode.stmt).map nodeSize).sum < 1 + stmtListSize b
      rw [sum_map_stmt_nodes]
      omega
  | expr e =>
    cases e with
    | nameE id => simp [children, nodeSize, exprSize]
    | constE => simp [children, nodeSize, exprSize]
    | callE f args =>
      show ((PyNode.expr f :: args.map PyNode.expr).map nodeSize).sum
        < 1 + exprSize f + exprListSize args
      rw [List.map_cons, List.sum_cons, sum_map_expr_nodes]
      simp only [nodeSize]
      omega
    | attributeE v attr => simp [children, nodeSize, exprSize]

/-- `ast.walk`: breadth-first traversal of the tree, exactly as the Python
standard library implements it (a queue initialised with the root; each
popped node is yielded and its children appended). -/
def walkAux : List PyNode → List PyNode
  | [] => []
  | n :: rest => n :: walkAux (rest ++ children n)
termination_by q => (q.map nodeSize).sum
decreasing_by
  simp only [List.map_append, List.sum_append, List.map_cons, List.sum_cons]
  have := children_size_lt n
  omega

/-- `ast.walk(tree)` for a parsed module. -/
def walk (m : PyModule) : List PyNode :=
  walkAux [.mod m]

/-- `Config.ALLOWED_IMPORTS` (config.py). -/
def ALLOWED_IMPORTS : List String :=
  ["numpy", "pandas", "matplotlib", "plotly",
   "marimo", "math", "statistics", "random",
   "datetime", "json", "scipy", "seaborn"]

/-- `Config.BLOCKED_MODULES` (config.py). -/
def BLOCKED_MODULES : List String :=
  ["os", "subprocess", "sys", "socket",
   "urllib", "requests", "http", "builtins"]

/-- `name.split('.')[0]`: the top-level segment of a dotted module name
(the characters before the first dot). -/
def topLevelModule (name : String) : String :=
  String.mk (name.toList.takeWhile (fun c => c ≠ '.'))

/-- Check one imported root module against the blocked and allowed sets, in
the order `_validate_import` checks them (blocked first, then allowed). -/
def checkModuleName (module : String) : Bool × String :=
  if module ∈ BLOCKED_MODULES then
    (false, "Import of " ++ module ++ " is blocked")
  else if module ∉ ALLOWED_IMPORTS then
    (false, "Import of " ++ module ++ " is not allowed")
  else
    (true, "")

/-- The per-name loop of `_validate_import` over an `import ...` statement's
aliases: the first offending name returns. -/
def checkImportNames : List String → Bool × String
  | [] => (true, "")
  | name :: rest =>
    let r := checkModuleName (topLevelModule name)
    if r.1 then checkImportNames rest else r

/-- `SecurityValidator._validate_import` (security.py lines 43-61). -/
def validateImport : PyStmt → Bool × String
  | .importS names => checkImportNames names
  | .importFromS module _ =>
    match module with
    | Option.some m => checkModuleName (topLevelModule m)
    | Option.none => (true, "")
  | _ => (true, "")

/-- The body of `_validate_ast`'s loop over `ast.walk(tree)`: imports are
checked by `_validate_import`; a `Call` whose function is the bare name
`exec` or `eval` is rejected. -/
def validateNodes : List PyNode → Bool × String
  | [] => (true, "")
  | n :: rest =>
    match n with
    | .stmt (.importS names) =>
      let r := validateImport (.importS names)
      if r.1 then validateNodes rest else r
    | .stmt (.importFromS m ns) =>
      let r := validateImport (.importFromS m ns)
      if r.1 then validateNodes rest else r
    | .expr (.callE f _) =>
      match f with
      | .nameE id =>
        if id = "exec" ∨ id = "eval" then
          (false, "Use of exec() or eval() is not allowed")
        else validateNodes rest
      | _ => validateNodes rest
    | _ => validateNodes rest

/-- `SecurityValidator._validate_ast` (security.py lines 27-41). -/
def validateAst (m : PyModule) : Bool × String :=
  validateNodes (walk m)

/-- `SecurityValidator.validate_code` (security.py lines 11-25).  `parse`
is the `ast.parse` oracle; on a SyntaxError with message `msg` it returns
`Except.error msg`. -/
def validateCode (maxCodeLength : Nat) (parse : String → Except String PyModule)
    (code : String) : Bool × String :=
  if code.length > maxCodeLength then
    (false, "Code exceeds maximum length of " ++ toString maxCodeLength ++ " characters")
  else
    match parse code with
    | Except.error e => (false, "Syntax error: " ++ e)
    | Except.ok tree =>
      let result := validateAst tree
      if !result.1 then result else (true, "")

/-! ## Session state (service/session.py)

`NotebookSession` owns the interpreter namespace `globals`, the widget
registry `widgets`, the per-cell trackers (`cell_variables`, `cell_imports`,
`cell_widgets`) and the per-cell pre-execution snapshots
(`cell_globals_snapshot`).  `sysModules` models the keys of `sys.modules`
touched by the import cleanup. -/

/-- A widget object held in the registry: its identity, its optional `_id`
attribute, and its `value` / `_value` attributes (each may be absent, which
is what `hasattr` tests). -/
structure WidgetObj where
  oid : Nat := 0
  idAttr : Option String := Option.none
  hasUValueAttr : Bool := false
  uvalueAttr : PyVal := PyVal.pyNone
  hasValueAttr : Bool := false
  valueAttr : PyVal := PyVal.pyNone

/-- A registry entry, the dict built by `NotebookSession.add_widget`:
backing object, declared type, properties, current value, declared
dependency edges, and the `needs_update` flag set by
`_trigger_dependent_widgets`. -/
structure WidgetEntry where
  obj : WidgetObj
  wtype : String
  properties : List (String × PyVal)
  value : PyVal
  dependencies : List String := []
  dependents : List String := []
  needsUpdate : Bool := false

/-- The mutable state of one `NotebookSession`. -/
structure SessionState where
  globals : List (String × Obj) := []
  widgets : List (String × WidgetEntry) := []
  cell_variables : List (String × List String) := []
  cell_imports : List (String × List String) := []
  cell_widgets : List (String × List String) := []
  cell_globals_snapshot : List (String × List (String × Obj)) := []
  sysModules : List String := []

/-- `p.startswith(q)` on strings, computed over the character lists. -/
def strHasPre (p s : String) : Bool :=
  p.toList.isPrefixOf s.toList

/-- `NotebookSession.PROTECTED_VARIABLES` (session.py lines 138-141). -/
def PROTECTED_VARIABLES : List String :=
  ["mo", "marimo", "__builtins__", "__name__", "__doc__",
   "__package__", "__loader__", "__spec__", "__file__"]

/-- `NotebookSession._is_protected_variable` (session.py lines 143-147). -/
def isProtectedVariable (var_name : String) : Bool :=
  PROTECTED_VARIABLES.contains var_name
    || strHasPre "_" var_name
    || strHasPre "__" var_name

/-- The protected-module set of `_is_protected_module` (session.py lines 257-274). -/
def protectedModuleSet : List String :=
  ["marimo", "mo", "builtins", "__builtin__", "sys", "os", "io",
   "typing", "collections", "datetime", "time", "json", "pickle",
   "tempfile", "shutil", "uuid", "asyncio", "ast", "inspect"]

/-- `NotebookSession._is_protected_module` (session.py lines 257-274). -/
def isProtectedModule (module_name : String) : Bool :=
  protectedModuleSet.contains module_name
    || strHasPre "_" module_name
    || ["minio", "config"].contains module_name

/-- `NotebookSession._capture_pre_execution_state` (session.py lines 149-152):
a shallow copy of the namespace (same references). -/
def capturePreExecutionState (s : SessionState) : List (String × Obj) :=
  s.globals

/-- `NotebookSession._track_cell_variables` (session.py lines 154-181):
new bindings are names present now but not before; modified bindings are
names present in both whose object identity changed (`is not`); the tracked
set drops protected names.  The tracked set is stored when non-empty and the
cell's stale entry is deleted when empty; the pre-execution snapshot is
stored unconditionally. -/
def trackCellVariables (s : SessionState) (cell_id : String)
    (pre : List (String × Obj)) : SessionState :=
  let currentVars := dkeys s.globals
  let preVars := dkeys pre
  let newVars := currentVars.filter (fun v => !preVars.contains v)
  let modifiedVars := (preVars.filter (fun v => currentVars.contains v)).filter
    (fun v => match dlookup s.globals v, dlookup pre v with
      | Option.some a, Option.some b => a.oid != b.oid
      | _, _ => false)
  let trackedVars := (newVars ++ modifiedVars).filter (fun v => !isProtectedVariable v)
  let cv :=
    if trackedVars.isEmpty then
      (if dmem s.cell_variables cell_id then ddel s.cell_variables cell_id
       else s.cell_variables)
    else dset s.cell_variables cell_id trackedVars
  { s with cell_variables := cv,
           cell_globals_snapshot := dset s.cell_globals_snapshot cell_id pre }

/-- `NotebookSession._is_module_used_by_other_cells` (session.py lines 250-255). -/
def isModuleUsedByOtherCells (s : SessionState) (current_cell_id module_name : String) : Bool :=
  s.cell_imports.any (fun p => p.1 != current_cell_id && p.2.contains module_name)

/-- `NotebookSession._cleanup_cell_imports` (session.py lines 225-248):
unload this cell's modules from `sys.modules` unless used by another cell or
protected, then drop the cell's import tracking. -/
def cleanupCellImports (s : SessionState) (cell_id : String) : SessionState :=
  match dlookup s.cell_imports cell_id with
  | Option.none => s
  | Option.some mods =>
    let modulesToRemove := mods.filter (fun m => s.sysModules.contains m
      && !isModuleUsedByOtherCells s cell_id m && !isProtectedModule m)
    { s with sysModules := s.sysModules.filter (fun m => !modulesToRemove.contains m),
             cell_imports := ddel s.cell_imports cell_id }

/-- `NotebookSession._is_widget_used_by_other_cells` (session.py lines 385-390). -/
def isWidgetUsedByOtherCells (s : SessionState) (current_cell_id widget_id : String) : Bool :=
  s.cell_widgets.any (fun p => p.1 != current_cell_id && p.2.contains widget_id)

/-- `NotebookSession._is_protected_widget` (session.py lines 392-397):
always false in the source. -/
def isProtectedWidget (_widget_id : String) : Bool :=
  false

/-- The globals sweep inside `_cleanup_cell_widgets` (session.py lines
369-376): walk the namespace in insertion order and delete the first
binding whose object's `_id` attribute equals the removed widget's id
(the loop breaks after the first hit).  There is no protection check. -/
def delFirstWithWidgetId : List (String × Obj) → String → List (String × Obj)
  | [], _ => []
  | (n, o) :: rest, w =>
    if o.idAttr = Option.some w then rest
    else (n, o) :: delFirstWithWidgetId rest w

/-- One iteration of the removal loop of `_cleanup_cell_widgets`: delete the
widget from the registry, then run the globals sweep for it. -/
def removeWidgetAndVariable (s : SessionState) (widget_id : String) : SessionState :=
  { s with widgets := ddel s.widgets widget_id,
           globals := delFirstWithWidgetId s.globals widget_id }

/-- `NotebookSession._cleanup_cell_widgets` (session.py lines 349-383). -/
def cleanupCellWidgets (s : SessionState) (cell_id : String) : SessionState :=
  match dlookup s.cell_widgets cell_id with
  | Option.none => s
  | Option.some wids =>
    let widgetsToRemove := wids.filter (fun w => dmem s.widgets w
      && !isWidgetUsedByOtherCells s cell_id w && !isProtectedWidget w)
    let s1 := widgetsToRemove.foldl removeWidgetAndVariable s
    { s1 with cell_widgets := ddel s1.cell_widgets cell_id }

/-- `NotebookSession._is_import_alias` (session.py lines 645-659). -/
def isImportAlias (s : SessionState) (var_name : String) : Bool :=
  ["pd", "np", "plt", "sns", "os", "sys", "json", "dt"].contains var_name
    || s.cell_imports.any (fun p => !p.2.isEmpty &&
        (match dlookup s.cell_variables p.1 with
         | Option.some vars => vars.contains var_name
         | Option.none => false))

/-- `NotebookSession._other_cell_imports_same_module` (session.py lines 661-668). -/
def otherCellImportsSameModule (s : SessionState) (cell_id : String) : Bool :=
  match dlookup s.cell_imports cell_id with
  | Option.some imps => imps.length > 0
  | Option.none => false

/-- `NotebookSession._might_have_dependency` (session.py lines 612-643): for
an import alias not defined by the other cell, defer to
`_other_cell_imports_same_module`; in every other case the source returns
False. -/
def mightHaveDependency (s : SessionState) (cell_id var_name : String) : Bool :=
  match dlookup s.cell_variables cell_id with
  | Option.none => false
  | Option.some cellVars =>
    if isImportAlias s var_name then
      if cellVars.contains var_name then false
      else otherCellImportsSameModule s cell_id
    else false

/-- `NotebookSession._is_variable_referenced_by_other_cells` (session.py
lines 587-610). -/
def isVariableReferencedByOtherCells (s : SessionState) (current_cell_id var_name : String) : Bool :=
  s.cell_variables.any (fun p => p.1 != current_cell_id
    && !p.2.isEmpty && dmem s.globals var_name
    && mightHaveDependency s p.1 var_name)

/-- `NotebookSession._is_variable_used_by_other_cells` (session.py lines
577-585): owned by another cell, or referenced per the alias heuristic. -/
def isVariableUsedByOtherCells (s : SessionState) (current_cell_id var_name : String) : Bool :=
  s.cell_variables.any (fun p => p.1 != current_cell_id && p.2.contains var_name)
    || isVariableReferencedByOtherCells s current_cell_id var_name

/-- `NotebookSession._cleanup_cell_variables` (session.py lines 440-471):
remove this cell's tracked bindings unless shared or protected, then run
the import cleanup and the widget cleanup, then drop the cell's tracking
and snapshot. -/
def cleanupCellVariables (s : SessionState) (cell_id : String) : SessionState :=
  match dlookup s.cell_variables cell_id with
  | Option.none => s
  | Option.some vars =>
    let variablesToRemove := vars.filter (fun v => dmem s.globals v
      && !isVariableUsedByOtherCells s cell_id v && !isProtectedVariable v)
    let s1 := { s with globals := s.globals.filter (fun p => !variablesToRemove.contains p.1) }
    let s2 := cleanupCellImports s1 cell_id
    let s3 := cleanupCellWidgets s2 cell_id
    { s3 with cell_variables := ddel s3.cell_variables cell_id,
              cell_globals_snapshot := ddel s3.cell_globals_snapshot cell_id }

/-- The assignment-target collection of
`_cleanup_conflicting_initial_variables` (session.py lines 483-496): the
names assigned by `Assign`, `AugAssign` and `AnnAssign` nodes whose target
is a bare name, over `ast.walk`. -/
def collectAssignTargets (m : PyModule) : List String :=
  (walk m).foldr (fun n acc =>
    match n with
    | .stmt (.assignS ts _) =>
      (ts.filterMap (fun t => match t with
        | .nameE id => Option.some id
        | _ => Option.none)) ++ acc
    | .stmt (.augAssignS t _) =>
      (match t with | .nameE id => [id] | _ => []) ++ acc
    | .stmt (.annAssignS t _) =>
      (match t with | .nameE id => [id] | _ => []) ++ acc
    | _ => acc) []

/-- `NotebookSession._cleanup_conflicting_initial_variables` (session.py
lines 473-524): eagerly retract initialization-owned bindings that the
incoming cell's source assigns, unless protected; when the initialization
record becomes empty, drop it together with its snapshot. -/
def cleanupConflictingInitialVariables (s : SessionState) (cell_id : String)
    (parsed : Except String PyModule) : SessionState :=
  if cell_id = "initialization" then s
  else
    match dlookup s.cell_variables "initialization" with
    | Option.none => s
    | Option.some initVariables =>
      match parsed with
      | Except.error _ => s
      | Except.ok tree =>
        let newVariables := collectAssignTargets tree
        let variablesToRemove := newVariables.filter (fun v =>
          initVariables.contains v && dmem s.globals v && !isProtectedVariable v)
        let remaining := initVariables.filter (fun v => !variablesToRemove.contains v)
        let s1 := { s with
          globals := s.globals.filter (fun p => !variablesToRemove.contains p.1),
          cell_variables := dset s.cell_variables "initialization" remaining }
        if remaining.isEmpty then
          { s1 with cell_variables := ddel s1.cell_variables "initialization",
                    cell_globals_snapshot := ddel s1.cell_globals_snapshot "initialization" }
        else s1

/-- `NotebookSession.force_cleanup_all_cell_variables` (session.py lines
702-723): drop every binding the cell introduced, ignoring cross-cell
sharing, but still skipping protected names; clear the tracking and the
snapshot. -/
def forceCleanupAllCellVariables (s : SessionState) (cell_id : String) : SessionState :=
  match dlookup s.cell_variables cell_id with
  | Option.none => s
  | Option.some vars =>
    let keep := fun (p : String × Obj) => !(vars.contains p.1 && !isProtectedVariable p.1)
    { s with globals := s.globals.filter keep,
             cell_variables := ddel s.cell_variables cell_id,
             cell_globals_snapshot := ddel s.cell_globals_snapshot cell_id }

/-- The orphaned-snapshot check of `validate_session_integrity` (session.py
lines 982-985): snapshot keys with no tracked-variable entry. -/
def orphanedSnapshots (s : SessionState) : List String :=
  (dkeys s.cell_globals_snapshot).filter (fun c => !dmem s.cell_variables c)

/-! ## Widget registry and marshalling (service/executor.py, service/session.py)

The duck-typed reflection helpers of the executor
(`_get_widget_type`, `_extract_widget_properties`, `_get_widget_value`) and
of the session (`_get_widget_type`, `_extract_widget_properties`) read the
runtime attribute surface of arbitrary Python objects; they enter the model
as function parameters over `WidgetObj`.  The md5-prefix content hash of
`_format_widget_result` (a deterministic function of the json.dumps of the
characteristics with sorted keys) is an abstract `hashFn` parameter:
theorems hold for every hash function, collisions included. -/

/-- The `(type, properties, value)` characteristics dict whose canonical
json.dumps is hashed by `_format_widget_result`. -/
structure WidgetChar where
  ctype : String
  properties : List (String × PyVal)
  value : PyVal

/-- `NotebookSession.add_widget` (session.py lines 1013-1032): build a fresh
registry entry using the session's own type/property extraction and
`getattr(widget_object, 'value', None)`; dependency lists start empty. -/
def addWidget (sessType : WidgetObj → String)
    (sessProps : WidgetObj → List (String × PyVal))
    (s : SessionState) (widget_id : String) (o : WidgetObj) : SessionState :=
  let entry : WidgetEntry :=
    { obj := o, wtype := sessType o, properties := sessProps o,
      value := if o.hasValueAttr then o.valueAttr else PyVal.pyNone,
      dependencies := [], dependents := [], needsUpdate := false }
  { s with widgets := dset s.widgets widget_id entry }

/-- The characteristics the executor computes for the object being
marshalled (`_format_widget_result`, executor.py lines 567-575). -/
def execCharOf (execType : WidgetObj → String)
    (execProps : WidgetObj → List (String × PyVal))
    (execValue : WidgetObj → PyVal) (o : WidgetObj) : WidgetChar :=
  { ctype := execType o, properties := execProps o, value := execValue o }

/-- The characteristics stored in a registry entry, re-hashed during the
scan of `_format_widget_result` (executor.py lines 578-590). -/
def entryCharOf (e : WidgetEntry) : WidgetChar :=
  { ctype := e.wtype, properties := e.properties, value := e.value }

/-- `widgets[existing_id]['object'] = result`: replace the backing object of
one registry entry in place. -/
def updateEntryObj (widgets : List (String × WidgetEntry)) (widget_id : String)
    (o : WidgetObj) : List (String × WidgetEntry) :=
  widgets.map (fun p => if p.1 = widget_id then (p.1, { p.2 with obj := o }) else p)

/-- The widget descriptor serialised into a WIDGET output's content. -/
structure WidgetData where
  id : String
  wtype : String
  value : PyVal
  properties : List (String × PyVal)

/-- `MarimoCellExecutor._format_widget_result` (executor.py lines 562-638):
hash the executor-extracted characteristics; scan the registry in insertion
order for the first entry whose stored characteristics hash the same; on a
hit reuse that id and update only the backing object reference; otherwise
register under `"widget_" ++ hash` via `add_widget`. -/
def formatWidgetResult (hashFn : WidgetChar → String)
    (execType : WidgetObj → String) (execProps : WidgetObj → List (String × PyVal))
    (execValue : WidgetObj → PyVal) (sessType : WidgetObj → String)
    (sessProps : WidgetObj → List (String × PyVal))
    (s : SessionState) (o : WidgetObj) : WidgetData × SessionState :=
  let widgetHash := hashFn (execCharOf execType execProps execValue o)
  match s.widgets.find? (fun p => hashFn (entryCharOf p.2) == widgetHash) with
  | Option.some pe =>
    ({ id := pe.1, wtype := pe.2.wtype, value := execValue o,
       properties := pe.2.properties },
     { s with widgets := updateEntryObj s.widgets pe.1 o })
  | Option.none =>
    let widget_id := "widget_" ++ widgetHash
    ({ id := widget_id, wtype := execType o, value := execValue o,
       properties := execProps o },
     addWidget sessType sessProps s widget_id o)

/-! ## Widget value update (service/session.py, main.py) -/

/-- `NotebookSession._trigger_dependent_widgets` (session.py lines
1048-1056): mark every registered dependent as needing re-evaluation. -/
def triggerDependentWidgets (s : SessionState) (widget_id : String) : SessionState :=
  match dlookup s.widgets widget_id with
  | Option.none => s
  | Option.some e =>
    { s with widgets := s.widgets.map (fun p =>
        if e.dependents.contains p.1 then (p.1, { p.2 with needsUpdate := true }) else p) }

/-- `NotebookSession.update_widget_value` (session.py lines 1034-1046):
silently a no-op when the widget id is unknown; otherwise write the value
through the object's `_value` (else `value`) attribute, update the registry
entry's value, and trigger dependents. -/
def sessionUpdateWidgetValue (s : SessionState) (widget_id : String)
    (new_value : PyVal) : SessionState :=
  match dlookup s.widgets widget_id with
  | Option.none => s
  | Option.some e =>
    let obj := e.obj
    let obj' :=
      if obj.hasUValueAttr then { obj with uvalueAttr := new_value }
      else if obj.hasValueAttr then { obj with valueAttr := new_value }
      else obj
    let s1 := { s with widgets := dset s.widgets widget_id { e with obj := obj', value := new_value } }
    triggerDependentWidgets s1 widget_id

/-- Python truthiness, `bool(v)`. -/
def pyTruthy : PyVal → Bool
  | PyVal.pyNone => false
  | PyVal.pyBool b => b
  | PyVal.pyNum q => q ≠ 0
  | PyVal.pyStr s => s ≠ ""
  | PyVal.pyList l => !l.isEmpty

/-- The gRPC handler `MarimoExecutorService.UpdateWidgetValue` (main.py
lines 145-221), after the session lookup succeeded.  `jsonLoads` is the
`json.loads` oracle (`none` models a JSONDecodeError, in which case the raw
string is kept); `pyFloatOfString` / `pyFloatOfVal` model `float(...)`
(`none` models ValueError/TypeError); `pyStrOf` models `str(...)`.  The
handler coerces by declared type, calls the session's
`update_widget_value`, and returns `success=True` unless an exception
escapes — note that no branch checks that the widget exists and no
constraint validation or auto-repair is invoked. -/
def updateWidgetValueRPC (jsonLoads : String → Option PyVal)
    (pyFloatOfString : String → Option ℚ) (pyFloatOfVal : PyVal → Option ℚ)
    (pyStrOf : PyVal → String)
    (s : SessionState) (widget_id : String) (raw : String) :
    (Bool × String) × SessionState :=
  let widget_info := dlookup s.widgets widget_id
  let widget_type :=
    match widget_info with
    | Option.some i => i.wtype
    | Option.none => "unknown"
  let parsedValue :=
    match jsonLoads raw with
    | Option.some v => v
    | Option.none => PyVal.pyStr raw
  let previousOrZero :=
    match widget_info with
    | Option.some i => i.value
    | Option.none => PyVal.pyNum 0
  let widget_value :=
    if widget_type = "number" then
      match parsedValue with
      | PyVal.pyNone => PyVal.pyNum 0
      | PyVal.pyStr t =>
        if t = "" then PyVal.pyNum 0
        else
          match pyFloatOfString t with
          | Option.some q => PyVal.pyNum q
          | Option.none => previousOrZero
      | PyVal.pyNum q => PyVal.pyNum q
      | PyVal.pyBool b => PyVal.pyBool b
      | other =>
        match pyFloatOfVal other with
        | Option.some q => PyVal.pyNum q
        | Option.none => previousOrZero
    else if widget_type = "checkbox" then
      PyVal.pyBool (pyTruthy parsedValue)
    else if widget_type = "dropdown" ∨ widget_type = "radio" then
      match parsedValue with
      | PyVal.pyNone => PyVal.pyStr ""
      | v => PyVal.pyStr (pyStrOf v)
    else if widget_type = "multiselect" then
      match parsedValue with
      | PyVal.pyList l => PyVal.pyList l
      | PyVal.pyNone => PyVal.pyList []
      | v => PyVal.pyList [v]
    else if widget_type = "range_slider" then
      match parsedValue with
      | PyVal.pyList l =>
        if l.length = 2 then PyVal.pyList l
        else PyVal.pyList [PyVal.pyNum 0, PyVal.pyNum 100]
      | _ => PyVal.pyList [PyVal.pyNum 0, PyVal.pyNum 100]
    else parsedValue
  ((true, ""), sessionUpdateWidgetValue s widget_id widget_value)

/-! ## State dumps (service/session.py `get_state`, service/executor.py
`_get_cell_state`) -/

/-- The `globals` component of `NotebookSession.get_state` (session.py lines
1508-1520): `str()` of every binding, with no filtering whatsoever. -/
def getStateGlobals (s : SessionState) : List (String × String) :=
  s.globals.map (fun p => (p.1, p.2.strRepr))

/-- The names `_get_cell_state` excludes besides underscore-prefixed ones. -/
def EXCLUDED_STATE_NAMES : List String :=
  ["In", "Out", "exit", "quit", "get_ipython"]

/-- `MarimoCellExecutor._get_cell_state` (executor.py lines 513-524):
re-inject `mo`, keep only names that neither start with an underscore nor
are among the excluded names, and map each to `repr(value)`, with the
sentinel when `repr` raises. -/
def getCellState (moObj : Obj) (s : SessionState) : List (String × String) :=
  let g := dset s.globals "mo" moObj
  (g.filter (fun p => !strHasPre "_" p.1 && !EXCLUDED_STATE_NAMES.contains p.1)).map
    (fun p => (p.1,
      match p.2.reprRepr with
      | Option.some r => r
      | Option.none => "Not Serializable"))

/-! ## Output finalisation and figure capture (service/executor.py) -/

/-- The stream handling in the `finally` block of `execute_cell`
(executor.py lines 197-217): a non-empty captured stdout is inserted at
position 0; then a non-empty captured stderr, when no exception was
recorded, is inserted at position 0 (ending up above the stdout output). -/
def finalizeOutputs (outputs : List Output) (stdout_val stderr_val error : String) :
    List Output :=
  let o1 :=
    if stdout_val ≠ "" then
      { otype := "STDOUT", content := stdout_val, mime := "text/plain" } :: outputs
    else outputs
  if stderr_val ≠ "" ∧ error = "" then
    { otype := "STDERR", content := stderr_val, mime := "text/plain" } :: o1
  else o1

/-- A matplotlib axes object, reduced to whether its `lines`, `patches`,
`collections` and `images` lists are non-empty. -/
structure Axis where
  lines : Bool := false
  patches : Bool := false
  collections : Bool := false
  images : Bool := false

/-- A matplotlib figure: its axes. -/
structure Figure where
  axes : List Axis

/-- The per-axes data test of `_capture_matplotlib_figures`
(executor.py lines 292-296). -/
def axisHasData (a : Axis) : Bool :=
  a.lines || a.patches || a.collections || a.images

/-- A figure has content when it has axes and some axes has data
(executor.py lines 289-297). -/
def figureHasPlottedData (f : Figure) : Bool :=
  !f.axes.isEmpty && f.axes.any axisHasData

/-- `MarimoCellExecutor._format_matplotlib_figure` (executor.py lines
472-511): render to PNG and wrap as a base64 data URL in an
EXPRESSION_RESULT output with image data; a rendering failure also yields
an EXPRESSION_RESULT text output.  `renderPng` is the savefig/base64
oracle. -/
def formatMatplotlibFigure (renderPng : Figure → Except String String)
    (f : Figure) : Output :=
  match renderPng f with
  | Except.ok b64 =>
    { otype := "EXPRESSION_RESULT", content := "data:image/png;base64," ++ b64,
      mime := "image/png", dataType := Option.some "IMAGE" }
  | Except.error e =>
    { otype := "EXPRESSION_RESULT", content := "Error displaying figure: " ++ e,
      mime := "text/plain", dataType := Option.some "TEXT" }

/-- `MarimoCellExecutor._capture_matplotlib_figures` (executor.py lines
275-314): every globally registered figure with plotted data is formatted;
every figure is closed. -/
def captureMatplotlibFigures (renderPng : Figure → Except String String)
    (figs : List Figure) : List Output :=
  (figs.filter figureHasPlottedData).map (formatMatplotlibFigure renderPng)

/-- The figure-scan step of `execute_cell` (executor.py lines 88-91 and
110-115): when the expression result itself exposes `savefig` the scan is
skipped entirely (nothing emitted, nothing closed); otherwise the scan
captures and closes the registered figures.  Returns the emitted outputs
and the figures left open. -/
def figureScanPhase (renderPng : Figure → Except String String)
    (resultIsFigure : Bool) (figs : List Figure) : List Output × List Figure :=
  if resultIsFigure then ([], figs)
  else (captureMatplotlibFigures renderPng figs, [])

/-! ## Session manager (service/session.py `SessionManager`)

Wall-clock time is a `Nat` (minutes); each operation receives the current
time.  `statObj` / `getObj` are the MinIO `stat_object` / `get_object`
oracles. -/

/-- The manager's registry: session id to last-accessed time. -/
structure ManagerState where
  sessions : List (String × Nat) := []

/-- `NotebookSession.is_expired` (session.py lines 123-124). -/
def sessionIsExpired (now last timeout_minutes : Nat) : Bool :=
  now - last > timeout_minutes

/-- `SessionManager.end_session` (session.py lines 1570-1575). -/
def endSession (st : ManagerState) (session_id : String) : ManagerState :=
  { st with sessions := ddel st.sessions session_id }

/-- `SessionManager._cleanup_expired_sessions` (session.py lines 1577-1584). -/
def cleanupExpiredSessions (st : ManagerState) (now timeout : Nat) : ManagerState :=
  { st with sessions := st.sessions.filter (fun p => !sessionIsExpired now p.2 timeout) }

/-- `notebook_path.lstrip('/')`. -/
def lstripSlash (path : String) : String :=
  String.mk (path.toList.dropWhile (fun c => c = '/'))

/-- `SessionManager._verify_notebook_exists` (session.py lines 1586-1605):
stat the cleaned path, then the path with `component.py` swapped for
`notebook.py`. -/
def verifyNotebookExists (statObj : String → Bool) (notebook_path : String) : Bool :=
  let clean := lstripSlash notebook_path
  statObj clean || statObj (clean.replace "component.py" "notebook.py")

/-- `SessionManager.get_notebook_content` (session.py lines 1607-1638):
fetch the cleaned path, falling back to the swapped filename. -/
def getNotebookContent (getObj : String → Option String) (notebook_path : String) :
    Option String :=
  let clean := lstripSlash notebook_path
  match getObj clean with
  | Option.some c => Option.some c
  | Option.none => getObj (clean.replace "component.py" "notebook.py")

/-- Outcome of `create_session`: the raised error (surfaced by the RPC
layer as `success=false` with the message) or success, in both cases with
the resulting registry. -/
inductive CreateResult where
  | ok (st : ManagerState) : CreateResult
  | err (msg : String) (st : ManagerState) : CreateResult

/-- The registry after a `create_session` call. -/
def CreateResult.state : CreateResult → ManagerState
  | .ok st => st
  | .err _ st => st

/-- `SessionManager.create_session` (session.py lines 1535-1558): sweep
expired sessions, reject a duplicate id, reject when the cap is reached,
reject when the notebook cannot be found, fetch the source, then insert the
new session with the current time as last-accessed. -/
def createSession (max_sessions timeout : Nat) (statObj : String → Bool)
    (getObj : String → Option String) (st : ManagerState) (now : Nat)
    (session_id notebook_path : String) : CreateResult :=
  let st1 := cleanupExpiredSessions st now timeout
  if dmem st1.sessions session_id then
    CreateResult.err ("Session with ID " ++ session_id ++ " already exists.") st1
  else if st1.sessions.length ≥ max_sessions then
    CreateResult.err "Maximum number of sessions reached" st1
  else if !verifyNotebookExists statObj notebook_path then
    CreateResult.err ("Notebook " ++ notebook_path ++ " not found in MinIO") st1
  else
    match getNotebookContent getObj notebook_path with
    | Option.none =>
      CreateResult.err ("Notebook/component file not found at " ++ notebook_path) st1
    | Option.some _ =>
      CreateResult.ok { st1 with sessions := dset st1.sessions session_id now }

/-- `SessionManager.get_session` (session.py lines 1560-1568): unknown ids
yield nothing; an expired session is ended and nothing is returned;
otherwise the session is touched (last-accessed updated to now) and
returned (the handle is its refreshed last-accessed time). -/
def getSessionMgr (timeout : Nat) (st : ManagerState) (now : Nat)
    (session_id : String) : Option Nat × ManagerState :=
  match dlookup st.sessions session_id with
  | Option.none => (Option.none, st)
  | Option.some last =>
    if sessionIsExpired now last timeout then
      (Option.none, endSession st session_id)
    else
      (Option.some now, { st with sessions := dset st.sessions session_id now })

/-- One Session Manager operation, with the wall-clock time at which it
runs. -/
inductive MgrOp where
  | createOp (now : Nat) (session_id notebook_path : String) : MgrOp
  | getOp (now : Nat) (session_id : String) : MgrOp
  | endOp (session_id : String) : MgrOp

/-- Apply one operation to the registry (keeping the registry an error
leaves behind, as the RPC layer does). -/
def applyMgrOp (max_sessions timeout : Nat) (statObj : String → Bool)
    (getObj : String → Option String) (st : ManagerState) : MgrOp → ManagerState
  | .createOp now sid path =>
    (createSession max_sessions timeout statObj getObj st now sid path).state
  | .getOp now sid => (getSessionMgr timeout st now sid).2
  | .endOp sid => endSession st sid

/-- Apply a sequence of operations. -/
def applyMgrOps (max_sessions timeout : Nat) (statObj : String → Bool)
    (getObj : String → Option String) (st : ManagerState) (ops : List MgrOp) :
    ManagerState :=
  ops.foldl (applyMgrOp max_sessions timeout statObj getObj) st

/-! ## Derived observation helpers -/

/-- The import roots a walk node contributes (what `_validate_import`
inspects on it). -/
def importRootsOfNode : PyNode → List String
  | .stmt (.importS names) => names.map topLevelModule
  | .stmt (.importFromS (Option.some m) _) => [topLevelModule m]
  | _ => []

/-- Whether a walk node is a call expression whose callee is the bare name
`exec` or `eval`. -/
def isBareDynamicCall : PyNode → Bool
  | .expr (.callE (.nameE id) _) => id = "exec" || id = "eval"
  | _ => false

/-- The value currently stored in the registry for a widget id. -/
def widgetEntryValueAt (s : SessionState) (widget_id : String) : Option PyVal :=
  (dlookup s.widgets widget_id).map WidgetEntry.value

/-! ## Concrete fixtures for witnesses and counterexamples -/

/-- A sample expression-result output (C3 fixture). -/
def sampleExpressionOutput : Output :=
  { otype := "EXPRESSION_RESULT", content := "3", mime := "text/plain",
    dataType := Option.some "TEXT" }

/-- The `mo` module handle injected at session initialisation (C6 fixture). -/
def moModuleObj : Obj :=
  { oid := 1, strRepr := "marimo module" }

/-- A freshly initialised session namespace, holding only the injected
handles (C6 fixture). -/
def freshSessionState : SessionState :=
  { globals := [("mo", moModuleObj), ("marimo", moModuleObj)] }

/-- Namespace object whose `repr` succeeds (C10 fixture). -/
def c10GoodObj : Obj :=
  { oid := 7, strRepr := "42", reprRepr := Option.some "42" }

/-- Namespace object whose `repr` raises (C10 fixture). -/
def c10BadObj : Obj :=
  { oid := 8, strRepr := "<obj>", reprRepr := Option.none }

/-- The injected module handle (C10 fixture). -/
def c10MoObj : Obj :=
  { oid := 9, strRepr := "<module marimo>", reprRepr := Option.some "<module marimo>" }

/-- A session namespace with a protected handle, an underscore name and an
unrepresentable binding (C10 fixture). -/
def c10State : SessionState :=
  { globals := [("mo", c10MoObj), ("_hidden", c10BadObj), ("x", c10GoodObj), ("bad", c10BadObj)] }

/-- A figure with one axes carrying line data (C8 fixture). -/
def c8Figure : Figure :=
  { axes := [{ lines := true }] }

/-- A registered number widget with constraints min=0, max=10, step=1 and
current value 5 (C2 fixture). -/
def c2NumberEntry : WidgetEntry :=
  { obj := { oid := 21, hasValueAttr := true, valueAttr := PyVal.pyNum 5 },
    wtype := "number",
    properties := [("min", PyVal.pyNum 0), ("max", PyVal.pyNum 10), ("step", PyVal.pyNum 1)],
    value := PyVal.pyNum 5 }

/-- A session holding the C2 number widget. -/
def c2Session : SessionState :=
  { widgets := [("widget_num1", c2NumberEntry)] }

/-- A `json.loads` oracle for the two C2 raw payloads. -/
def c2JsonLoads : String → Option PyVal :=
  fun raw =>
    if raw = "\"15\"" then Option.some (PyVal.pyStr "15")
    else if raw = "\"abc\"" then Option.some (PyVal.pyStr "abc")
    else Option.none

/-- A `float(...)` oracle for the two C2 payloads: "15" parses to 15,
"abc" raises ValueError. -/
def c2FloatOfString : String → Option ℚ :=
  fun t => if t = "15" then Option.some 15 else Option.none

/-- The parsed module of the source `import badmod, os` (C4 fixture). -/
def c4Module : PyModule :=
  { body := [PyStmt.importS ["badmod", "os"]] }

/-- The parsed module of the clean source `x` (C4 fixture). -/
def c4CleanModule : PyModule :=
  { body := [PyStmt.exprS (PyExpr.nameE "x")] }

/-- An `ast.parse` oracle covering the C4 concrete sources; `x` and `xy`
and the at-cap/over-cap strings parse to the clean module. -/
def c4Parse : String → Except String PyModule :=
  fun code =>
    if code = "import badmod, os" then Except.ok c4Module
    else Except.ok c4CleanModule

/-- A widget object whose `_id` attribute is the registry id
`widget_dead1234` (C5 fixture): user code can craft such an object. -/
def c5WidgetObjA : Obj :=
  { oid := 31, idAttr := Option.some "widget_dead1234" }

/-- A second object carrying the same `_id` (C5 fixture). -/
def c5WidgetObjB : Obj :=
  { oid := 32, idAttr := Option.some "widget_dead1234" }

/-- C5 fixture session: the protected underscore name `_x` is bound (first,
in insertion order) to an object whose `_id` is the id of a widget owned
solely by cell `c1`; `v` is the tracked binding that owns the widget. -/
def c5State : SessionState :=
  { globals := [("_x", c5WidgetObjA), ("v", c5WidgetObjB)],
    widgets := [("widget_dead1234",
      { obj := { oid := 33 }, wtype := "slider", properties := [], value := PyVal.pyNum 0 })],
    cell_variables := [("c1", ["v"])],
    cell_widgets := [("c1", ["widget_dead1234"])] }

/-- C5 witness fixture: a session with the protected handle `mo` (no `_id`
attribute) and one tracked binding. -/
def c5WitnessState : SessionState :=
  { globals := [("mo", { oid := 41 }), ("data", { oid := 42 })],
    widgets := [("widget_feed5678",
      { obj := { oid := 43 }, wtype := "slider", properties := [], value := PyVal.pyNum 0 })],
    cell_variables := [("c1", ["data"])],
    cell_widgets := [("c1", ["widget_feed5678"])] }

/-- C7 fixture: a duck-typed checkbox-like widget object. -/
def c7Obj : WidgetObj :=
  { oid := 51, hasValueAttr := true, valueAttr := PyVal.pyBool false }

/-- C7 fixture: a concrete stand-in for the md5-prefix content hash. -/
def c7Hash : WidgetChar → String :=
  fun c => c.ctype

/-- C7 fixture: type extraction returning `checkbox` for every object. -/
def c7Type : WidgetObj → String :=
  fun _ => "checkbox"

/-- C7 fixture: property extraction returning no properties. -/
def c7Props : WidgetObj → List (String × PyVal) :=
  fun _ => []

/-- C7 fixture: value extraction reading the `value` attribute with the
`None` fallback. -/
def c7Val : WidgetObj → PyVal :=
  fun o => if o.hasValueAttr then o.valueAttr else PyVal.pyNone

/-! ## Basic dictionary lemmas -/

theorem dlookup_dset_self {α : Type} (m : List (String × α)) (k : String) (v : α) :
    dlookup (dset m k v) k = Option.some v := by
  induction m with
  | nil => simp [dset, dlookup]
  | cons p rest ih =>
    obtain ⟨k', v'⟩ := p
    by_cases h : k' = k
    · simp [dset, h, dlookup]
    · simp [dset, h, dlookup, ih]

theorem dlookup_dset_ne {α : Type} (m : List (String × α)) (k k' : String) (v : α)
    (h : k' ≠ k) : dlookup (dset m k v) k' = dlookup m k' := by
  have hk : ¬(k = k') := fun e => h e.symm
  induction m with
  | nil => simp [dset, dlookup, hk]
  | cons p rest ih =>
    obtain ⟨k0, v0⟩ := p
    by_cases hp : k0 = k
    · subst hp
      simp [dset, dlookup, hk]
    · by_cases hk0 : k0 = k'
      · subst hk0
        simp [dset, hp, dlookup]
      · simp [dset, hp, dlookup, hk0, ih]

theorem dmem_iff_exists {α : Type} (m : List (String × α)) (k : String) :
    dmem m k = true ↔ ∃ v, (k, v) ∈ m := by
  induction m with
  | nil => simp [dmem, dlookup]
  | cons p rest ih =>
    obtain ⟨k', v'⟩ := p
    by_cases h : k' = k
    · subst h
      simp [dmem, dlookup]
    · simp only [dmem, dlookup, if_neg h] at ih ⊢
      rw [ih]
      constructor
      · rintro ⟨v, hv⟩
        exact ⟨v, List.mem_cons_of_mem _ hv⟩
      · rintro ⟨v, hv⟩
        rcases List.mem_cons.mp hv with heq | hmem
        · exact absurd (congrArg Prod.fst heq).symm h
        · exact ⟨v, hmem⟩

/-! ## C1: widget update on a missing widget id -/

/-- Helper for C1: on an unknown widget id the coercion chain falls into the
`unknown` type branch and the session update is a no-op. -/
theorem updateWidgetValueRPC_missing_widget (jsonLoads : String → Option PyVal)
    (pyFloatOfString : String → Option ℚ) (pyFloatOfVal : PyVal → Option ℚ)
    (pyStrOf : PyVal → String) (s : SessionState) (widget_id raw : String)
    (h : dlookup s.widgets widget_id = Option.none) :
    updateWidgetValueRPC jsonLoads pyFloatOfString pyFloatOfVal pyStrOf s widget_id raw
      = ((true, ""), s) := by
  simp [updateWidgetValueRPC, sessionUpdateWidgetValue, h]

/-- C1 counterexample: in a session whose widget registry is empty, the
UpdateWidgetValue handler returns `success=true` with an empty error for the
unknown widget id `w1` — not `success=false` with a reason as the claim
states. -/
theorem c1_counterexample_missing_widget_reports_success :
    (updateWidgetValueRPC (fun _ => Option.none) (fun _ => Option.none)
      (fun _ => Option.none) (fun _ => "") { } "w1" "5").1 = (true, "") := by
  rfl

/-- C1 (amended): for every session and every widget_id not present in the
session's widget registry, the UpdateWidgetValue handler silently succeeds:
it returns `success=true` with an empty error and leaves the session state
completely unchanged (the update is dropped by the membership guard of
`NotebookSession.update_widget_value`). -/
theorem c1_missing_widget_silently_succeeds (jsonLoads : String → Option PyVal)
    (pyFloatOfString : String → Option ℚ) (pyFloatOfVal : PyVal → Option ℚ)
    (pyStrOf : PyVal → String) (s : SessionState) (widget_id raw : String)
    (h : dlookup s.widgets widget_id = Option.none) :
    updateWidgetValueRPC jsonLoads pyFloatOfString pyFloatOfVal pyStrOf s widget_id raw
      = ((true, ""), s) :=
  updateWidgetValueRPC_missing_widget jsonLoads pyFloatOfString pyFloatOfVal pyStrOf
    s widget_id raw h

/-- Witness for C1 at a concrete session with one unrelated widget. -/
theorem c1_missing_widget_silently_succeeds_witness :
    updateWidgetValueRPC (fun _ => Option.none) (fun _ => Option.none)
      (fun _ => Option.none) (fun _ => "")
      { widgets := [("widget_aaaaaaaa",
          { obj := { }, wtype := "slider", properties := [], value := PyVal.pyNum 0 })] }
      "widget_bbbbbbbb" "7"
      = ((true, ""),
         { widgets := [("widget_aaaaaaaa",
             { obj := { }, wtype := "slider", properties := [], value := PyVal.pyNum 0 })] }) :=
  c1_missing_widget_silently_succeeds (fun _ => Option.none) (fun _ => Option.none)
    (fun _ => Option.none) (fun _ => "") _ "widget_bbbbbbbb" "7" (by rfl)

/-! ## C3: ordering of captured stdout and stderr outputs -/

/-- C3 counterexample: a successful execution with both streams non-empty
yields an output list beginning with STDERR and then STDOUT — the claim
says STDOUT comes first. -/
theorem c3_counterexample_stderr_above_stdout :
    (finalizeOutputs [sampleExpressionOutput] "out" "err" "").map Output.otype
      = ["STDERR", "STDOUT", "EXPRESSION_RESULT"] := by
  rfl

/-- C3 (amended): for every cell execution that produced both captured
standard-output text and captured standard-error text with no uncaught
exception, the returned output list begins with the STDERR output followed
by the STDOUT output (stderr above stdout), both preceding all other
outputs. -/
theorem c3_stderr_then_stdout_precede_outputs (outputs : List Output)
    (stdout_val stderr_val : String)
    (hso : stdout_val ≠ "") (hse : stderr_val ≠ "") :
    finalizeOutputs outputs stdout_val stderr_val ""
      = { otype := "STDERR", content := stderr_val, mime := "text/plain" }
        :: { otype := "STDOUT", content := stdout_val, mime := "text/plain" }
        :: outputs := by
  simp [finalizeOutputs, hso, hse]

/-- Witness for C3 at concrete streams. -/
theorem c3_stderr_then_stdout_precede_outputs_witness :
    finalizeOutputs [] "o" "e" ""
      = [{ otype := "STDERR", content := "e", mime := "text/plain" },
         { otype := "STDOUT", content := "o", mime := "text/plain" }] :=
  c3_stderr_then_stdout_precede_outputs [] "o" "e" (by decide) (by decide)

/-! ## C6: snapshot retention with empty tracking -/

/-- C6: executing a cell that introduces no bindings (failing input:
`ExecuteCell(cell_id="c1", source="1+1")` on a fresh session) leaves the
cell with no tracked-variable entry, yet `_track_cell_variables` stores the
pre-execution snapshot unconditionally, and the session's own
`validate_session_integrity` immediately reports `c1` as an orphaned
snapshot — contradicting the claim (and the spec invariant) that no
snapshot remains for a cell with an empty tracked-binding set. -/
theorem c6_snapshot_stored_despite_empty_tracking :
    dlookup (trackCellVariables freshSessionState "c1"
        (capturePreExecutionState freshSessionState)).cell_variables "c1"
      = Option.none
    ∧ dlookup (trackCellVariables freshSessionState "c1"
        (capturePreExecutionState freshSessionState)).cell_globals_snapshot "c1"
      = Option.some (capturePreExecutionState freshSessionState)
    ∧ orphanedSnapshots (trackCellVariables freshSessionState "c1"
        (capturePreExecutionState freshSessionState))
      = ["c1"] := by
  refine ⟨rfl, rfl, rfl⟩

/-! ## C10: full state dump versus filtered per-cell display snapshot -/

/-- C10: `get_state` stringifies every namespace binding with no filtering
(protected handles and underscore-prefixed names included, and nothing else
is added to its key set), whereas the per-cell display snapshot
`_get_cell_state` drops every name starting with an underscore and renders
a binding whose `repr` raises as the sentinel "Not Serializable". -/
theorem c10_state_dumps (s : SessionState) (moObj : Obj) :
    (∀ k v, (k, v) ∈ s.globals → (k, v.strRepr) ∈ getStateGlobals s)
    ∧ dkeys (getStateGlobals s) = dkeys s.globals
    ∧ (∀ k, strHasPre "_" k = true → k ∉ (getCellState moObj s).map Prod.fst)
    ∧ (∀ k v, (k, v) ∈ dset s.globals "mo" moObj → strHasPre "_" k = false →
        EXCLUDED_STATE_NAMES.contains k = false →
        (k, match v.reprRepr with
            | Option.some r => r
            | Option.none => "Not Serializable") ∈ getCellState moObj s) := by
  refine ⟨?_, ?_, ?_, ?_⟩
  · intro k v h
    exact List.mem_map.mpr ⟨(k, v), h, rfl⟩
  · simp [dkeys, getStateGlobals, List.map_map, Function.comp]
  · intro k hk hmem
    simp only [getCellState, List.map_map, List.mem_map, Function.comp] at hmem
    obtain ⟨p, hp, hpk⟩ := hmem
    have hpred := (List.mem_filter.mp hp).2
    rw [hpk] at hpred
    simp [hk] at hpred
  · intro k v hmem h1 h2
    simp only [getCellState, List.mem_map]
    refine ⟨(k, v), List.mem_filter.mpr ⟨hmem, ?_⟩, rfl⟩
    simp only [h1, Bool.not_false, Bool.true_and, Bool.not_eq_true']
    exact h2

/-- Witness for C10: the full dump keeps the underscore-prefixed binding,
and the display snapshot renders the unrepresentable binding as the
sentinel. -/
theorem c10_state_dumps_witness :
    ("_hidden", "<obj>") ∈ getStateGlobals c10State
    ∧ ("bad", "Not Serializable") ∈ getCellState c10MoObj c10State := by
  refine ⟨?_, ?_⟩
  · exact (c10_state_dumps c10State c10MoObj).1 "_hidden" c10BadObj (by decide)
  · exact (c10_state_dumps c10State c10MoObj).2.2.2 "bad" c10BadObj (by decide)
      (by decide) (by decide)

/-! ## C8: figure capture outputs -/

/-- C8 counterexample: a cell whose (non-figure) result leaves one
data-carrying figure registered produces, from the figure scan, exactly one
output — and its kind is EXPRESSION_RESULT, not PLOT; no PLOT output is
ever built by the executor. -/
theorem c8_counterexample_scan_emits_expression_result_not_plot :
    (figureScanPhase (fun _ => Except.ok "PNG") false [c8Figure]).1.map Output.otype
      = ["EXPRESSION_RESULT"]
    ∧ ((figureScanPhase (fun _ => Except.ok "PNG") false [c8Figure]).1.map
        Output.otype).contains "PLOT" = false := by
  exact ⟨rfl, rfl⟩

/-- C8 (amended): when the expression result is itself a figure the
after-execution scan is skipped entirely (no outputs, and the registered
figures stay open rather than being closed); otherwise the scan closes
every registered figure and emits exactly one output per figure with
plotted data — as an EXPRESSION_RESULT image output, never as a PLOT
output. -/
theorem c8_figure_scan (renderPng : Figure → Except String String) (figs : List Figure) :
    figureScanPhase renderPng true figs = ([], figs)
    ∧ (figureScanPhase renderPng false figs).2 = []
    ∧ (figureScanPhase renderPng false figs).1.length
        = (figs.filter figureHasPlottedData).length
    ∧ (∀ o ∈ (figureScanPhase renderPng false figs).1, o.otype = "EXPRESSION_RESULT") := by
  refine ⟨rfl, rfl, ?_, ?_⟩
  · simp [figureScanPhase, captureMatplotlibFigures]
  · intro o ho
    simp only [figureScanPhase, if_neg (by simp : ¬(false = true)),
      captureMatplotlibFigures, List.mem_map] at ho
    obtain ⟨f, _, hfo⟩ := ho
    rw [← hfo]
    unfold formatMatplotlibFigure
    cases renderPng f <;> rfl

/-- Witness for C8 at a concrete figure list and renderer. -/
theorem c8_figure_scan_witness :
    figureScanPhase (fun _ => Except.ok "PNG") true [c8Figure] = ([], [c8Figure])
    ∧ (formatMatplotlibFigure (fun _ => Except.ok "PNG") c8Figure).otype
        = "EXPRESSION_RESULT" := by
  refine ⟨(c8_figure_scan (fun _ => Except.ok "PNG") [c8Figure]).1, ?_⟩
  exact (c8_figure_scan (fun _ => Except.ok "PNG") [c8Figure]).2.2.2
    (formatMatplotlibFigure (fun _ => Except.ok "PNG") c8Figure) (by decide)

/-! ## C9: session manager invariants -/

theorem dset_length_of_not_mem {α : Type} (m : List (String × α)) (k : String) (v : α)
    (h : dmem m k = false) : (dset m k v).length = m.length + 1 := by
  induction m with
  | nil => simp [dset]
  | cons p rest ih =>
    obtain ⟨k0, v0⟩ := p
    by_cases hk : k0 = k
    · simp [dmem, dlookup, hk] at h
    · simp only [dmem, dlookup, if_neg hk] at h
      simp [dset, hk, ih h]

theorem dset_length_of_mem {α : Type} (m : List (String × α)) (k : String) (v : α)
    (h : dmem m k = true) : (dset m k v).length = m.length := by
  induction m with
  | nil => simp [dmem, dlookup] at h
  | cons p rest ih =>
    obtain ⟨k0, v0⟩ := p
    by_cases hk : k0 = k
    · simp [dset, hk]
    · simp only [dmem, dlookup, if_neg hk] at h
      simp [dset, hk, ih h]

theorem ddel_length_le {α : Type} (m : List (String × α)) (k : String) :
    (ddel m k).length ≤ m.length :=
  List.length_filter_le _ m

theorem cleanupExpiredSessions_length_le (st : ManagerState) (now timeout : Nat) :
    (cleanupExpiredSessions st now timeout).sessions.length ≤ st.sessions.length :=
  List.length_filter_le _ st.sessions

/-- Helper for C9: a single manager operation preserves the session cap. -/
theorem applyMgrOp_preserves_cap (max_sessions timeout : Nat)
    (statObj : String → Bool) (getObj : String → Option String)
    (st : ManagerState) (op : MgrOp)
    (h : st.sessions.length ≤ max_sessions) :
    (applyMgrOp max_sessions timeout statObj getObj st op).sessions.length
      ≤ max_sessions := by
  cases op with
  | createOp now sid path =>
    simp only [applyMgrOp, createSession]
    have h1 : (cleanupExpiredSessions st now timeout).sessions.length ≤ max_sessions :=
      le_trans (cleanupExpiredSessions_length_le st now timeout) h
    by_cases hdup : dmem (cleanupExpiredSessions st now timeout).sessions sid = true
    · simp [hdup, CreateResult.state, h1]
    · rw [if_neg hdup]
      by_cases hcap : (cleanupExpiredSessions st now timeout).sessions.length ≥ max_sessions
      · simp [hcap, CreateResult.state, h1]
      · rw [if_neg hcap]
        by_cases hnb : verifyNotebookExists statObj path = true
        · simp only [hnb, Bool.not_true, Bool.false_eq_true, if_false]
          cases hget : getNotebookContent getObj path with
          | none => simpa [CreateResult.state] using h1
          | some c =>
            simp only [CreateResult.state]
            rw [dset_length_of_not_mem _ _ _ (by simpa using hdup)]
            omega
        · simp only [Bool.not_eq_true] at hnb
          simp [hnb, CreateResult.state, h1]
  | getOp now sid =>
    simp only [applyMgrOp, getSessionMgr]
    cases hl : dlookup st.sessions sid with
    | none => simpa using h
    | some last =>
      by_cases hexp : sessionIsExpired now last timeout = true
      · simp only [hexp, if_true]
        exact le_trans (ddel_length_le st.sessions sid) h
      · simp only [Bool.not_eq_true] at hexp
        simp only [hexp, Bool.false_eq_true, if_false]
        have hm : dmem st.sessions sid = true := by simp [dmem, hl]
        rw [dset_length_of_mem _ _ _ hm]
        exact h
  | endOp sid =>
    exact le_trans (ddel_length_le st.sessions sid) h

/-- C9: over every operation sequence the session count never exceeds the
cap; `create_session` rejects a duplicate id, rejects at the cap, and
rejects a notebook found in neither location; and looking up a session past
its idle timeout ends it and returns nothing. -/
theorem c9_session_manager (max_sessions timeout : Nat) (statObj : String → Bool)
    (getObj : String → Option String) :
    (∀ st ops, st.sessions.length ≤ max_sessions →
      (applyMgrOps max_sessions timeout statObj getObj st ops).sessions.length
        ≤ max_sessions)
    ∧ (∀ st now sid path,
        dmem (cleanupExpiredSessions st now timeout).sessions sid = true →
        createSession max_sessions timeout statObj getObj st now sid path
          = CreateResult.err ("Session with ID " ++ sid ++ " already exists.")
              (cleanupExpiredSessions st now timeout))
    ∧ (∀ st now sid path,
        dmem (cleanupExpiredSessions st now timeout).sessions sid = false →
        (cleanupExpiredSessions st now timeout).sessions.length ≥ max_sessions →
        createSession max_sessions timeout statObj getObj st now sid path
          = CreateResult.err "Maximum number of sessions reached"
              (cleanupExpiredSessions st now timeout))
    ∧ (∀ st now sid path,
        dmem (cleanupExpiredSessions st now timeout).sessions sid = false →
        (cleanupExpiredSessions st now timeout).sessions.length < max_sessions →
        verifyNotebookExists statObj path = false →
        createSession max_sessions timeout statObj getObj st now sid path
          = CreateResult.err ("Notebook " ++ path ++ " not found in MinIO")
              (cleanupExpiredSessions st now timeout))
    ∧ (∀ st now sid last,
        dlookup st.sessions sid = Option.some last →
        sessionIsExpired now last timeout = true →
        getSessionMgr timeout st now sid = (Option.none, endSession st sid)) := by
  refine ⟨?_, ?_, ?_, ?_, ?_⟩
  · intro st ops
    induction ops generalizing st with
    | nil => intro h; simpa [applyMgrOps] using h
    | cons op rest ih =>
      intro h
      simp only [applyMgrOps, List.foldl_cons]
      exact ih _ (applyMgrOp_preserves_cap max_sessions timeout statObj getObj st op h)
  · intro st now sid path hdup
    simp [createSession, hdup]
  · intro st now sid path hdup hcap
    simp [createSession, hdup, hcap]
  · intro st now sid path hdup hcap hnb
    simp [createSession, hdup, hnb, Nat.not_le.mpr hcap]
  · intro st now sid last hl hexp
    simp [getSessionMgr, hl, hexp]

/-- Witness for C9: a concrete run — the cap holds for a two-operation
sequence from an empty registry with cap 1, and a lookup of an expired
session returns nothing while removing it. -/
theorem c9_session_manager_witness :
    (applyMgrOps 1 30 (fun _ => true) (fun _ => Option.some "x = 1") { }
      [MgrOp.createOp 0 "s1" "nb/component.py",
       MgrOp.createOp 0 "s2" "nb/component.py"]).sessions.length ≤ 1
    ∧ getSessionMgr 30 { sessions := [("s1", 0)] } 31 "s1"
        = (Option.none, endSession { sessions := [("s1", 0)] } "s1") := by
  refine ⟨?_, ?_⟩
  · exact (c9_session_manager 1 30 (fun _ => true) (fun _ => Option.some "x = 1")).1
      { } [MgrOp.createOp 0 "s1" "nb/component.py",
           MgrOp.createOp 0 "s2" "nb/component.py"] (by decide)
  · exact (c9_session_manager 1 30 (fun _ => true) (fun _ => Option.some "x = 1")).2.2.2.2
      { sessions := [("s1", 0)] } 31 "s1" 0 (by rfl) (by decide)

/-! ## C2: number-widget value coercion on the RPC path -/

theorem dlookup_markNeedsUpdate_value (dep : List String)
    (m : List (String × WidgetEntry)) (k : String) :
    (dlookup (m.map (fun p =>
        if dep.contains p.1 then (p.1, { p.2 with needsUpdate := true }) else p)) k).map
      WidgetEntry.value
    = (dlookup m k).map WidgetEntry.value := by
  induction m with
  | nil => rfl
  | cons p rest ih =>
    obtain ⟨k0, e0⟩ := p
    rw [List.map_cons]
    by_cases hdep : dep.contains k0
    · rw [if_pos hdep]
      by_cases hk : k0 = k
      · simp only [dlookup]
        rw [if_pos hk, if_pos hk]
        rfl
      · simp only [dlookup]
        rw [if_neg hk, if_neg hk]
        exact ih
    · rw [if_neg hdep]
      by_cases hk : k0 = k
      · simp only [dlookup]
        rw [if_pos hk, if_pos hk]
      · simp only [dlookup]
        rw [if_neg hk, if_neg hk]
        exact ih

theorem widgetEntryValueAt_trigger (s : SessionState) (w k : String) :
    widgetEntryValueAt (triggerDependentWidgets s w) k = widgetEntryValueAt s k := by
  unfold triggerDependentWidgets
  cases dlookup s.widgets w with
  | none => rfl
  | some e => exact dlookup_markNeedsUpdate_value e.dependents s.widgets k

/-- Helper for C2: on a registered widget of declared type `number`, a raw
payload whose JSON value is a non-empty string is passed to `float(...)`;
on success the parsed number is stored unchanged (no constraint check and
no clamping happens anywhere on this path), on failure the previous
registry value is re-stored; the call reports success either way. -/
theorem updateWidgetValueRPC_number (jsonLoads : String → Option PyVal)
    (pyFloatOfString : String → Option ℚ) (pyFloatOfVal : PyVal → Option ℚ)
    (pyStrOf : PyVal → String) (s : SessionState) (widget_id raw t : String)
    (e : WidgetEntry) (he : dlookup s.widgets widget_id = Option.some e)
    (ht : e.wtype = "number") (hj : jsonLoads raw = Option.some (PyVal.pyStr t))
    (hne : t ≠ "") :
    (updateWidgetValueRPC jsonLoads pyFloatOfString pyFloatOfVal pyStrOf s widget_id raw).1
      = (true, "")
    ∧ (∀ q, pyFloatOfString t = Option.some q →
        widgetEntryValueAt
          (updateWidgetValueRPC jsonLoads pyFloatOfString pyFloatOfVal pyStrOf s widget_id raw).2
          widget_id = Option.some (PyVal.pyNum q))
    ∧ (pyFloatOfString t = Option.none →
        widgetEntryValueAt
          (updateWidgetValueRPC jsonLoads pyFloatOfString pyFloatOfVal pyStrOf s widget_id raw).2
          widget_id = Option.some e.value) := by
  refine ⟨rfl, ?_, ?_⟩
  · intro q hq
    simp only [updateWidgetValueRPC, he, ht, hj, hne, hq, if_pos rfl, if_neg hne,
      sessionUpdateWidgetValue]
    rw [widgetEntryValueAt_trigger]
    simp [widgetEntryValueAt, dlookup_dset_self]
  · intro hq
    simp only [updateWidgetValueRPC, he, ht, hj, hne, hq, if_pos rfl, if_neg hne,
      sessionUpdateWidgetValue]
    rw [widgetEntryValueAt_trigger]
    simp [widgetEntryValueAt, dlookup_dset_self]

/-- C2 counterexample: on the number widget with constraints min=0, max=10,
step=1 and current value 5, `UpdateWidgetValue` with the JSON string payload
"15" succeeds — but the stored value afterwards is 15, not the clamped 10
the claim states: the RPC handler never invokes the validation/auto-repair
machinery (`auto_fix_widget_value` is only reached from
`batch_update_widgets`). -/
theorem c2_counterexample_no_clamping :
    (updateWidgetValueRPC c2JsonLoads c2FloatOfString (fun _ => Option.none)
      (fun _ => "") c2Session "widget_num1" "\"15\"").1 = (true, "")
    ∧ widgetEntryValueAt
        (updateWidgetValueRPC c2JsonLoads c2FloatOfString (fun _ => Option.none)
          (fun _ => "") c2Session "widget_num1" "\"15\"").2 "widget_num1"
      = Option.some (PyVal.pyNum 15)
    ∧ Option.some (PyVal.pyNum 15) ≠ Option.some (PyVal.pyNum 10) := by
  refine ⟨rfl, rfl, ?_⟩
  intro h
  have : (15 : ℚ) = 10 := by
    injection h with h1
    injection h1
  norm_num at this

/-- C2 (amended): for every registered widget of declared type number, the
RPC update with the JSON string "15" succeeds and stores 15 unclamped (the
single-widget RPC path performs no constraint validation and no repair,
even when the value lies outside the declared min/max), and the update with
the non-numeric string "abc" succeeds with the previous value retained. -/
theorem c2_number_update_unclamped_and_fallback (s : SessionState)
    (widget_id : String) (e : WidgetEntry)
    (he : dlookup s.widgets widget_id = Option.some e) (ht : e.wtype = "number") :
    ((updateWidgetValueRPC c2JsonLoads c2FloatOfString (fun _ => Option.none)
        (fun _ => "") s widget_id "\"15\"").1 = (true, "")
      ∧ widgetEntryValueAt
          (updateWidgetValueRPC c2JsonLoads c2FloatOfString (fun _ => Option.none)
            (fun _ => "") s widget_id "\"15\"").2 widget_id
        = Option.some (PyVal.pyNum 15))
    ∧ ((updateWidgetValueRPC c2JsonLoads c2FloatOfString (fun _ => Option.none)
        (fun _ => "") s widget_id "\"abc\"").1 = (true, "")
      ∧ widgetEntryValueAt
          (updateWidgetValueRPC c2JsonLoads c2FloatOfString (fun _ => Option.none)
            (fun _ => "") s widget_id "\"abc\"").2 widget_id
        = Option.some e.value) := by
  have h15 := updateWidgetValueRPC_number c2JsonLoads c2FloatOfString
    (fun _ => Option.none) (fun _ => "") s widget_id "\"15\"" "15" e he ht
    (by rfl) (by decide)
  have habc := updateWidgetValueRPC_number c2JsonLoads c2FloatOfString
    (fun _ => Option.none) (fun _ => "") s widget_id "\"abc\"" "abc" e he ht
    (by rfl) (by decide)
  exact ⟨⟨h15.1, h15.2.1 15 (by rfl)⟩, ⟨habc.1, habc.2.2 (by rfl)⟩⟩

/-- Witness for C2 at the concrete fixture session. -/
theorem c2_number_update_unclamped_and_fallback_witness :
    widgetEntryValueAt
        (updateWidgetValueRPC c2JsonLoads c2FloatOfString (fun _ => Option.none)
          (fun _ => "") c2Session "widget_num1" "\"abc\"").2 "widget_num1"
      = Option.some (PyVal.pyNum 5) :=
  (c2_number_update_unclamped_and_fallback c2Session "widget_num1" c2NumberEntry
    (by rfl) (by rfl)).2.2

/-! ## C4: security validator characterisation -/

theorem checkModuleName_fst_iff (m : String) :
    (checkModuleName m).1 = true ↔ (m ∉ BLOCKED_MODULES ∧ m ∈ ALLOWED_IMPORTS) := by
  unfold checkModuleName
  by_cases hb : m ∈ BLOCKED_MODULES
  · simp [hb]
  · by_cases ha : m ∈ ALLOWED_IMPORTS
    · simp [hb, ha]
    · simp [hb, ha]

theorem checkImportNames_fst_iff (names : List String) :
    (checkImportNames names).1 = true ↔
      ∀ n ∈ names, topLevelModule n ∉ BLOCKED_MODULES ∧ topLevelModule n ∈ ALLOWED_IMPORTS := by
  induction names with
  | nil => simp [checkImportNames]
  | cons n rest ih =>
    simp only [checkImportNames, List.forall_mem_cons]
    by_cases h : (checkModuleName (topLevelModule n)).1 = true
    · rw [if_pos h, ih]
      have hh := (checkModuleName_fst_iff (topLevelModule n)).mp h
      simp [hh]
    · rw [if_neg h]
      simp only [Bool.not_eq_true] at h
      constructor
      · intro he
        rw [he] at h
        exact absurd h (by simp)
      · rintro ⟨hhead, _⟩
        rw [(checkModuleName_fst_iff (topLevelModule n)).mpr hhead] at h
        exact absurd h (by simp)

/-- Per-node acceptance condition of the AST walk. -/
def nodeOk (n : PyNode) : Prop :=
  (∀ r ∈ importRootsOfNode n, r ∉ BLOCKED_MODULES ∧ r ∈ ALLOWED_IMPORTS)
    ∧ isBareDynamicCall n = false

theorem validateNodes_fst_iff (l : List PyNode) :
    (validateNodes l).1 = true ↔ ∀ n ∈ l, nodeOk n := by
  induction l with
  | nil => simp [validateNodes, nodeOk]
  | cons n rest ih =>
    rw [List.forall_mem_cons]
    cases n with
    | mod m =>
      simpa [validateNodes, nodeOk, importRootsOfNode, isBareDynamicCall] using ih
    | stmt s =>
      cases s with
      | importS names =>
        simp only [validateNodes, validateImport]
        by_cases h : (checkImportNames names).1 = true
        · rw [if_pos h, ih]
          have hnames := (checkImportNames_fst_iff names).mp h
          constructor
          · intro hr
            refine ⟨⟨?_, rfl⟩, hr⟩
            intro r hrm
            rcases List.mem_map.mp hrm with ⟨nm, hnm, rfl⟩
            exact hnames nm hnm
          · exact fun hx => hx.2
        · rw [if_neg h]
          simp only [Bool.not_eq_true] at h
          constructor
          · intro he
            rw [he] at h
            exact absurd h (by simp)
          · rintro ⟨⟨hroots, _⟩, _⟩
            rw [(checkImportNames_fst_iff names).mpr ?_] at h
            · exact absurd h (by simp)
            · intro nm hnm
              exact hroots (topLevelModule nm)
                (by simp only [importRootsOfNode]; exact List.mem_map.mpr ⟨nm, hnm, rfl⟩)
      | importFromS mo ns =>
        cases mo with
        | none =>
          simpa [validateNodes, validateImport, nodeOk, importRootsOfNode,
            isBareDynamicCall] using ih
        | some mm =>
          simp only [validateNodes, validateImport]
          by_cases h : (checkModuleName (topLevelModule mm)).1 = true
          · rw [if_pos h, ih]
            have hmm := (checkModuleName_fst_iff (topLevelModule mm)).mp h
            simp [nodeOk, importRootsOfNode, isBareDynamicCall, hmm]
          · rw [if_neg h]
            simp only [Bool.not_eq_true] at h
            constructor
            · intro he
              rw [he] at h
              exact absurd h (by simp)
            · rintro ⟨⟨hroots, _⟩, _⟩
              have := hroots (topLevelModule mm) (by simp [importRootsOfNode])
              rw [(checkModuleName_fst_iff (topLevelModule mm)).mpr this] at h
              exact absurd h (by simp)
      | exprS e =>
        simpa [validateNodes, nodeOk, importRootsOfNode, isBareDynamicCall] using ih
      | assignS ts v =>
        simpa [validateNodes, nodeOk, importRootsOfNode, isBareDynamicCall] using ih
      | augAssignS t v =>
        simpa [validateNodes, nodeOk, importRootsOfNode, isBareDynamicCall] using ih
      | annAssignS t v =>
        simpa [validateNodes, nodeOk, importRootsOfNode, isBareDynamicCall] using ih
      | functionDefS nm b =>
        simpa [validateNodes, nodeOk, importRootsOfNode, isBareDynamicCall] using ih
    | expr e =>
      cases e with
      | nameE id =>
        simpa [validateNodes, nodeOk, importRootsOfNode, isBareDynamicCall] using ih
      | constE =>
        simpa [validateNodes, nodeOk, importRootsOfNode, isBareDynamicCall] using ih
      | callE f args =>
        cases f with
        | nameE id =>
          simp only [validateNodes]
          by_cases hid : id = "exec" ∨ id = "eval"
          · rw [if_pos hid]
            simp only [nodeOk, isBareDynamicCall]
            constructor
            · intro he
              exact absurd he (by simp)
            · rintro ⟨⟨_, hbare⟩, _⟩
              rcases hid with h | h <;> simp [h] at hbare
          · rw [if_neg hid, ih]
            have hbare : isBareDynamicCall (.expr (.callE (.nameE id) args)) = false := by
              simp only [isBareDynamicCall]
              rw [not_or] at hid
              simp [hid.1, hid.2]
            simp [nodeOk, importRootsOfNode, hbare]
        | constE =>
          simpa [validateNodes, nodeOk, importRootsOfNode, isBareDynamicCall] using ih
        | callE g gargs =>
          simpa [validateNodes, nodeOk, importRootsOfNode, isBareDynamicCall] using ih
        | attributeE v attr =>
          simpa [validateNodes, nodeOk, importRootsOfNode, isBareDynamicCall] using ih
      | attributeE v attr =>
        simpa [validateNodes, nodeOk, importRootsOfNode, isBareDynamicCall] using ih

/-- C4 counterexample: the claimed rejection priority does not hold.  The
source `import badmod, os` contains an import whose top-level module `os`
is in the blocked set, so under the claim's ordering it should be rejected
as a blocked import — but the validator walks the import's names left to
right and reports the not-allowed rejection for `badmod` instead. -/
theorem c4_counterexample_rejection_priority :
    validateCode 25000 c4Parse "import badmod, os"
      = (false, "Import of badmod is not allowed")
    ∧ importRootsOfNode (PyNode.stmt (PyStmt.importS ["badmod", "os"]))
        = ["badmod", "os"]
    ∧ "os" ∈ BLOCKED_MODULES
    ∧ PyNode.stmt (PyStmt.importS ["badmod", "os"]) ∈ walk c4Module := by
  refine ⟨?_, by decide, by decide, ?_⟩
  · simp +decide [validateCode, c4Parse, c4Module, validateAst, walk, walkAux,
      validateNodes, validateImport, checkImportNames, checkModuleName,
      topLevelModule, children, ALLOWED_IMPORTS, BLOCKED_MODULES]
  · simp +decide [walk, walkAux, c4Module, children]

/-- C4 (amended): the validator accepts exactly the sources that are within
the length cap, parse, have every import's top-level module allowed and not
blocked, and contain no direct call to the bare names exec or eval; a
source over the cap is rejected with the length message (so a source
exactly at the cap passes the length check).  Rejection reasons are
produced in AST-walk order with an import's names checked left to right
(blocked before allowed per name), not by the claim's global category
priority. -/
theorem c4_validate (maxCodeLength : Nat) (parse : String → Except String PyModule)
    (code : String) :
    (validateCode maxCodeLength parse code = (true, "") ↔
      (code.length ≤ maxCodeLength ∧ ∃ m, parse code = Except.ok m ∧
        ∀ n ∈ walk m, nodeOk n))
    ∧ (code.length > maxCodeLength →
        validateCode maxCodeLength parse code
          = (false, "Code exceeds maximum length of " ++ toString maxCodeLength
              ++ " characters")) := by
  constructor
  · by_cases hl : code.length > maxCodeLength
    · simp only [validateCode, if_pos hl]
      constructor
      · intro he
        exact absurd (congrArg Prod.fst he) (by simp)
      · rintro ⟨hle, _⟩
        omega
    · cases hp : parse code with
      | error e =>
        simp only [validateCode, if_neg hl, hp]
        constructor
        · intro he
          exact absurd (congrArg Prod.fst he) (by simp)
        · rintro ⟨_, m, hm, _⟩
          exact absurd hm (by simp)
      | ok m =>
        simp only [validateCode, if_neg hl, hp]
        constructor
        · intro he
          refine ⟨Nat.not_lt.mp hl, m, rfl, (validateNodes_fst_iff (walk m)).mp ?_⟩
          by_cases hv : (validateAst m).1 = true
          · exact hv
          · exfalso
            simp only [Bool.not_eq_true] at hv
            rw [if_pos (by simp [hv])] at he
            rw [he] at hv
            exact absurd hv (by simp)
        · rintro ⟨_, m', hm', hok⟩
          injection hm' with hmm
          subst hmm
          have hv : (validateAst m).1 = true := (validateNodes_fst_iff (walk m)).mpr hok
          rw [if_neg (by simp [hv])]
  · intro hl
    unfold validateCode
    rw [if_pos hl]

/-- Witness for C4: with cap 1, the one-character source `x` (exactly at
the cap) is accepted and the two-character source `xy` is rejected with
the length message. -/
theorem c4_validate_witness :
    validateCode 1 c4Parse "x" = (true, "")
    ∧ validateCode 1 c4Parse "xy"
        = (false, "Code exceeds maximum length of 1 characters") := by
  constructor
  · refine (c4_validate 1 c4Parse "x").1.mpr ⟨by decide, c4CleanModule, ?_, ?_⟩
    · simp [c4Parse]
    · intro n hn
      simp only [walk, c4CleanModule] at hn
      simp only [walkAux, children, List.map_nil, List.map_cons, List.nil_append,
        List.cons_append, List.append_nil] at hn
      fin_cases hn
      all_goals refine ⟨?_, by rfl⟩
      all_goals intro r hr
      all_goals simp [importRootsOfNode] at hr
  · exact (c4_validate 1 c4Parse "xy").2 (by decide)



/-! ## C5: protected names under the cleanup paths -/

theorem dlookup_eq_some_mem {α : Type} (m : List (String × α)) (k : String) (v : α)
    (h : dlookup m k = Option.some v) : (k, v) ∈ m := by
  induction m with
  | nil => simp [dlookup] at h
  | cons p rest ih =>
    obtain ⟨k0, v0⟩ := p
    by_cases hk : k0 = k
    · subst hk
      simp only [dlookup, if_pos rfl] at h
      injection h with h
      subst h
      exact List.mem_cons_self _ _
    · simp only [dlookup, if_neg hk] at h
      exact List.mem_cons_of_mem _ (ih h)

theorem mem_delFirstWithWidgetId (g : List (String × Obj)) (w k : String) (o : Obj)
    (hmem : (k, o) ∈ g) (hid : o.idAttr = Option.none) :
    (k, o) ∈ delFirstWithWidgetId g w := by
  induction g with
  | nil => simp at hmem
  | cons p rest ih =>
    obtain ⟨k0, o0⟩ := p
    simp only [delFirstWithWidgetId]
    by_cases h0 : o0.idAttr = Option.some w
    · rw [if_pos h0]
      rcases List.mem_cons.mp hmem with heq | hmem'
      · exfalso
        have : o0 = o := (Prod.mk.injEq _ _ _ _ |>.mp heq.symm).2
        rw [this, hid] at h0
        exact absurd h0 (by simp)
      · exact hmem'
    · rw [if_neg h0]
      rcases List.mem_cons.mp hmem with heq | hmem'
      · exact heq ▸ List.mem_cons_self _ _
      · exact List.mem_cons_of_mem _ (ih hmem')

theorem mem_globals_foldl_removeWidget (ws : List String) (s : SessionState)
    (k : String) (o : Obj) (hmem : (k, o) ∈ s.globals) (hid : o.idAttr = Option.none) :
    (k, o) ∈ (ws.foldl removeWidgetAndVariable s).globals := by
  induction ws generalizing s with
  | nil => exact hmem
  | cons w rest ih =>
    simp only [List.foldl_cons]
    exact ih (removeWidgetAndVariable s w)
      (mem_delFirstWithWidgetId s.globals w k o hmem hid)

theorem cleanupCellImports_globals (s : SessionState) (c : String) :
    (cleanupCellImports s c).globals = s.globals := by
  unfold cleanupCellImports
  cases dlookup s.cell_imports c <;> rfl

/-- Helper for C5: a binding whose object carries no `_id` attribute
survives the widget-cleanup sweep. -/
theorem protected_survives_cleanupCellWidgets (s : SessionState) (c k : String)
    (o : Obj) (hmem : (k, o) ∈ s.globals) (hid : o.idAttr = Option.none) :
    (k, o) ∈ (cleanupCellWidgets s c).globals := by
  unfold cleanupCellWidgets
  cases dlookup s.cell_widgets c with
  | none => exact hmem
  | some wids =>
    exact mem_globals_foldl_removeWidget _ s k o hmem hid

/-- C5 counterexample: in a session where the protected underscore name
`_x` is bound (first in insertion order) to an object whose `_id` equals a
widget id owned solely by cell `c1`, the widget-cleanup pass removes `_x`
from the namespace: the globals sweep of `_cleanup_cell_widgets` has no
protection check. -/
theorem c5_counterexample_widget_sweep_removes_protected :
    isProtectedVariable "_x" = true
    ∧ dmem c5State.globals "_x" = true
    ∧ dmem (cleanupCellWidgets c5State "c1").globals "_x" = false := by
  refine ⟨by decide, by rfl, by rfl⟩

/-- C5 (amended): the per-cell variable retraction loop, the
initialisation-conflict cleanup and the forced cleanup never remove a
protected name, and no cleanup path removes a protected name whose bound
object carries no `_id` attribute; but the globals sweep of the
widget-cleanup pass deletes the first binding whose object's `_id` equals a
removed widget's id without any protection check, so a protected name bound
to such an object can be removed (see the counterexample). -/
theorem c5_protected_names_survive_cleanups :
    (∀ s c n, isProtectedVariable n = true → dmem s.globals n = true →
      dmem (forceCleanupAllCellVariables s c).globals n = true)
    ∧ (∀ s c parsed n, isProtectedVariable n = true → dmem s.globals n = true →
      dmem (cleanupConflictingInitialVariables s c parsed).globals n = true)
    ∧ (∀ s c n o, isProtectedVariable n = true →
      dlookup s.globals n = Option.some o → o.idAttr = Option.none →
      dmem (cleanupCellVariables s c).globals n = true)
    ∧ (∀ s c n o, isProtectedVariable n = true →
      dlookup s.globals n = Option.some o → o.idAttr = Option.none →
      dmem (cleanupCellWidgets s c).globals n = true) := by
  refine ⟨?_, ?_, ?_, ?_⟩
  · intro s c n hn hmem
    unfold forceCleanupAllCellVariables
    cases dlookup s.cell_variables c with
    | none => exact hmem
    | some vars =>
      rcases (dmem_iff_exists s.globals n).mp hmem with ⟨v, hv⟩
      refine (dmem_iff_exists _ n).mpr ⟨v, List.mem_filter.mpr ⟨hv, ?_⟩⟩
      simp only [hn]
      simp
  · intro s c parsed n hn hmem
    unfold cleanupConflictingInitialVariables
    by_cases hc : c = "initialization"
    · rw [if_pos hc]
      exact hmem
    · rw [if_neg hc]
      cases dlookup s.cell_variables "initialization" with
      | none => exact hmem
      | some initVariables =>
        cases parsed with
        | error e => exact hmem
        | ok tree =>
          rcases (dmem_iff_exists s.globals n).mp hmem with ⟨v, hv⟩
          have hsurv : (n, v) ∈ s.globals.filter (fun p =>
              !((collectAssignTargets tree).filter (fun x =>
                initVariables.contains x && dmem s.globals x
                  && !isProtectedVariable x)).contains p.1) := by
            refine List.mem_filter.mpr ⟨hv, ?_⟩
            simp [hn]
          by_cases hrem : ((initVariables.filter (fun v =>
              !((collectAssignTargets tree).filter (fun x =>
                initVariables.contains x && dmem s.globals x
                  && !isProtectedVariable x)).contains v))).isEmpty = true
          · simp only [hrem, if_pos rfl]

            exact (dmem_iff_exists _ n).mpr ⟨v, by simpa [Bool.and_assoc] using hsurv⟩
          · simp only [Bool.not_eq_true] at hrem
            simp only [hrem]
            simp only [Bool.false_eq_true, if_false]
            exact (dmem_iff_exists _ n).mpr ⟨v, by simpa [Bool.and_assoc] using hsurv⟩
  · intro s c n o hn hl hid
    unfold cleanupCellVariables
    cases dlookup s.cell_variables c with
    | none => exact (dmem_iff_exists _ n).mpr ⟨o, dlookup_eq_some_mem _ _ _ hl⟩
    | some vars =>
      have hmem0 : (n, o) ∈ s.globals := dlookup_eq_some_mem _ _ _ hl
      have hsurv1 : (n, o) ∈ s.globals.filter (fun p =>
          !(vars.filter (fun v => dmem s.globals v
            && !isVariableUsedByOtherCells s c v && !isProtectedVariable v)).contains p.1) := by
        refine List.mem_filter.mpr ⟨hmem0, ?_⟩
        simp [hn]
      have hsurv2 := protected_survives_cleanupCellWidgets
        (cleanupCellImports { s with globals := s.globals.filter (fun p =>
          !(vars.filter (fun v => dmem s.globals v
            && !isVariableUsedByOtherCells s c v && !isProtectedVariable v)).contains p.1) } c)
        c n o (by
          rw [cleanupCellImports_globals]
          simpa [Bool.and_assoc] using hsurv1) hid
      exact (dmem_iff_exists _ n).mpr ⟨o, by simpa using hsurv2⟩
  · intro s c n o hn hl hid
    exact (dmem_iff_exists _ n).mpr
      ⟨o, protected_survives_cleanupCellWidgets s c n o (dlookup_eq_some_mem _ _ _ hl) hid⟩

/-- Witness for C5 at the concrete witness session: the protected handle
`mo` (whose object has no `_id`) survives forced cleanup, the
initialisation-conflict pass, the per-cell retraction and the widget
cleanup of cell `c1`. -/
theorem c5_protected_names_survive_cleanups_witness :
    dmem (forceCleanupAllCellVariables c5WitnessState "c1").globals "mo" = true
    ∧ dmem (cleanupCellVariables c5WitnessState "c1").globals "mo" = true
    ∧ dmem (cleanupCellWidgets c5WitnessState "c1").globals "mo" = true := by
  refine ⟨?_, ?_, ?_⟩
  · exact c5_protected_names_survive_cleanups.1 c5WitnessState "c1" "mo"
      (by decide) (by rfl)
  · exact c5_protected_names_survive_cleanups.2.2.1 c5WitnessState "c1" "mo"
      { oid := 41 } (by decide) (by rfl) (by rfl)
  · exact c5_protected_names_survive_cleanups.2.2.2 c5WitnessState "c1" "mo"
      { oid := 41 } (by decide) (by rfl) (by rfl)

/-! ## C7: widget registration idempotence -/

theorem entryCharOf_objUpdate (e : WidgetEntry) (o : WidgetObj) :
    entryCharOf { e with obj := o } = entryCharOf e :=
  rfl

theorem find?_updateEntryObj (hashFn : WidgetChar → String) (h : String)
    (m : List (String × WidgetEntry)) (wid : String) (o : WidgetObj) :
    (updateEntryObj m wid o).find? (fun p => hashFn (entryCharOf p.2) == h)
      = (m.find? (fun p => hashFn (entryCharOf p.2) == h)).map
          (fun p => if p.1 = wid then (p.1, { p.2 with obj := o }) else p) := by
  unfold updateEntryObj
  rw [List.find?_map]
  have hPg : ((fun p => hashFn (entryCharOf p.2) == h) ∘
      (fun p : String × WidgetEntry =>
        if p.1 = wid then (p.1, { p.2 with obj := o }) else p))
      = (fun p => hashFn (entryCharOf p.2) == h) := by
    funext p
    by_cases hw : p.1 = wid
    · simp [Function.comp, hw, entryCharOf]
    · simp [Function.comp, hw]
  rw [hPg]

theorem find?_dset_of_none (P : String × WidgetEntry → Bool)
    (m : List (String × WidgetEntry)) (k : String) (v : WidgetEntry)
    (hm : m.find? P = Option.none) :
    (dset m k v).find? P = if P (k, v) then Option.some (k, v) else Option.none := by
  induction m with
  | nil =>
    simp only [dset, List.find?]
    cases hp : P (k, v) <;> simp [hp]
  | cons p rest ih =>
    obtain ⟨k0, v0⟩ := p
    have hhead : P (k0, v0) = false := by
      by_contra hcon
      simp only [Bool.not_eq_false] at hcon
      simp [List.find?, hcon] at hm
    have hrest : rest.find? P = Option.none := by
      simpa [List.find?, hhead] using hm
    by_cases hk : k0 = k
    · subst hk
      have hd : dset ((k0, v0) :: rest) k0 v = (k0, v) :: rest := by
        simp [dset]
      rw [hd]
      simp only [List.find?]
      cases hp : P (k0, v) <;> simp [hp, hrest]
    · have hd : dset ((k0, v0) :: rest) k v = (k0, v0) :: dset rest k v := by
        simp [dset, hk]
      rw [hd]
      simp only [List.find?, hhead]
      exact ih hrest

theorem dset_dset (m : List (String × WidgetEntry)) (k : String) (v v' : WidgetEntry) :
    dset (dset m k v) k v' = dset m k v' := by
  induction m with
  | nil => simp [dset]
  | cons p rest ih =>
    obtain ⟨k0, v0⟩ := p
    by_cases hk : k0 = k
    · subst hk
      simp [dset]
    · simp [dset, hk, ih]

theorem updateEntryObj_eq_self (m : List (String × WidgetEntry)) (k : String)
    (o : WidgetObj) (h : ∀ p ∈ m, p.1 ≠ k) : updateEntryObj m k o = m := by
  induction m with
  | nil => rfl
  | cons p rest ih =>
    simp only [updateEntryObj, List.map_cons]
    rw [if_neg (h p (List.mem_cons_self _ _))]
    have := ih (fun q hq => h q (List.mem_cons_of_mem _ hq))
    simp only [updateEntryObj] at this
    rw [this]

theorem updateEntryObj_dset (m : List (String × WidgetEntry)) (k : String)
    (v : WidgetEntry) (o : WidgetObj) (hnd : (m.map Prod.fst).Nodup) :
    updateEntryObj (dset m k v) k o = dset m k { v with obj := o } := by
  induction m with
  | nil => simp [dset, updateEntryObj]
  | cons p rest ih =>
    obtain ⟨k0, v0⟩ := p
    simp only [List.map_cons, List.nodup_cons] at hnd
    by_cases hk : k0 = k
    · subst hk
      have hd : dset ((k0, v0) :: rest) k0 v = (k0, v) :: rest := by
        simp [dset]
      have hd' : dset ((k0, v0) :: rest) k0 { v with obj := o }
          = (k0, { v with obj := o }) :: rest := by
        simp [dset]
      have hrest : updateEntryObj rest k0 o = rest := by
        refine updateEntryObj_eq_self rest k0 o ?_
        intro q hq hqe
        exact hnd.1 (hqe ▸ List.mem_map.mpr ⟨q, hq, rfl⟩)
      rw [hd, hd']
      unfold updateEntryObj at hrest ⊢
      rw [List.map_cons, hrest]
      simp
    · have hd : dset ((k0, v0) :: rest) k v = (k0, v0) :: dset rest k v := by
        simp [dset, hk]
      have hd' : dset ((k0, v0) :: rest) k { v with obj := o }
          = (k0, v0) :: dset rest k { v with obj := o } := by
        simp [dset, hk]
      have htail := ih hnd.2
      rw [hd, hd']
      unfold updateEntryObj at htail ⊢
      rw [List.map_cons, htail]
      simp [hk]

/-- C7: registering two widget objects with identical executor-extracted
characteristics (declared type, properties, current value) and identical
session-extracted characteristics within the same session yields the same
widget id, and the second registration's net effect on the registry is only
to update the backing object reference of that entry.  The content hash,
and the executor-side and session-side duck-typed reflection helpers, are
arbitrary function parameters, so the statement covers every hash and
every attribute surface. -/
theorem c7_widget_registration_idempotent (hashFn : WidgetChar → String)
    (execType : WidgetObj → String) (execProps : WidgetObj → List (String × PyVal))
    (execValue : WidgetObj → PyVal) (sessType : WidgetObj → String)
    (sessProps : WidgetObj → List (String × PyVal))
    (s : SessionState) (o1 o2 : WidgetObj)
    (hnd : (s.widgets.map Prod.fst).Nodup)
    (hexec : execCharOf execType execProps execValue o1
      = execCharOf execType execProps execValue o2)
    (hsessT : sessType o1 = sessType o2)
    (hsessP : sessProps o1 = sessProps o2)
    (hsessV : (if o1.hasValueAttr then o1.valueAttr else PyVal.pyNone)
      = (if o2.hasValueAttr then o2.valueAttr else PyVal.pyNone)) :
    (formatWidgetResult hashFn execType execProps execValue sessType sessProps
        (formatWidgetResult hashFn execType execProps execValue sessType sessProps s o1).2
        o2).1.id
      = (formatWidgetResult hashFn execType execProps execValue sessType sessProps s o1).1.id
    ∧ (formatWidgetResult hashFn execType execProps execValue sessType sessProps
        (formatWidgetResult hashFn execType execProps execValue sessType sessProps s o1).2
        o2).2.widgets
      = updateEntryObj
          (formatWidgetResult hashFn execType execProps execValue sessType sessProps s o1).2.widgets
          (formatWidgetResult hashFn execType execProps execValue sessType sessProps s o1).1.id
          o2 := by
  have hh : hashFn (execCharOf execType execProps execValue o2)
      = hashFn (execCharOf execType execProps execValue o1) := by rw [hexec]
  cases hfind : s.widgets.find?
      (fun p => hashFn (entryCharOf p.2)
        == hashFn (execCharOf execType execProps execValue o1)) with
  | some pe =>
    obtain ⟨eid, e⟩ := pe
    have hfind2 : (updateEntryObj s.widgets eid o1).find?
        (fun p => hashFn (entryCharOf p.2)
          == hashFn (execCharOf execType execProps execValue o1))
        = Option.some (eid, { e with obj := o1 }) := by
      rw [find?_updateEntryObj, hfind]
      simp
    constructor
    · simp only [formatWidgetResult, hfind, hh, hfind2]
    · simp only [formatWidgetResult, hfind, hh, hfind2]
  | none =>
    have hset := find?_dset_of_none
      (fun p => hashFn (entryCharOf p.2)
        == hashFn (execCharOf execType execProps execValue o1))
      s.widgets ("widget_" ++ hashFn (execCharOf execType execProps execValue o1))
      { obj := o1, wtype := sessType o1, properties := sessProps o1,
        value := if o1.hasValueAttr then o1.valueAttr else PyVal.pyNone }
      hfind
    cases hmatch : hashFn (entryCharOf
        { obj := o1, wtype := sessType o1, properties := sessProps o1,
          value := if o1.hasValueAttr then o1.valueAttr else PyVal.pyNone })
        == hashFn (execCharOf execType execProps execValue o1) with
    | true =>
      -- the freshly inserted entry re-hashes to the same value, so the
      -- second registration takes the reuse branch on the inserted entry
      simp only [hmatch, if_true] at hset
      constructor
      · simp only [formatWidgetResult, hfind, addWidget, hh, hset]
      · simp only [formatWidgetResult, hfind, addWidget, hh, hset]
    | false =>
      -- the inserted entry hashes differently (the session-side extraction
      -- disagrees with the executor-side one): the second registration
      -- re-inserts under the same id, overwriting with identical fields
      simp only [hmatch, Bool.false_eq_true, if_false] at hset
      have hent2 :
          ({ obj := o2, wtype := sessType o2, properties := sessProps o2,
             value := if o2.hasValueAttr then o2.valueAttr else PyVal.pyNone } : WidgetEntry)
          = { obj := o2, wtype := sessType o1, properties := sessProps o1,
              value := if o1.hasValueAttr then o1.valueAttr else PyVal.pyNone } := by
        rw [hsessT, hsessP, hsessV]
      constructor
      · simp only [formatWidgetResult, hfind, addWidget, hh, hset]
      · simp only [formatWidgetResult, hfind, addWidget, hh, hset]
        rw [hent2, dset_dset,
          updateEntryObj_dset s.widgets _ _ _ hnd]



/-- Witness for C7: marshalling the same duck-typed checkbox object twice
into an empty session registry. -/
theorem c7_widget_registration_idempotent_witness :
    (formatWidgetResult c7Hash c7Type c7Props c7Val c7Type c7Props
        (formatWidgetResult c7Hash c7Type c7Props c7Val c7Type c7Props { } c7Obj).2
        c7Obj).1.id
      = (formatWidgetResult c7Hash c7Type c7Props c7Val c7Type c7Props { } c7Obj).1.id
    ∧ (formatWidgetResult c7Hash c7Type c7Props c7Val c7Type c7Props
        (formatWidgetResult c7Hash c7Type c7Props c7Val c7Type c7Props { } c7Obj).2
        c7Obj).2.widgets
      = updateEntryObj
          (formatWidgetResult c7Hash c7Type c7Props c7Val c7Type c7Props { } c7Obj).2.widgets
          (formatWidgetResult c7Hash c7Type c7Props c7Val c7Type c7Props { } c7Obj).1.id
          c7Obj :=
  c7_widget_registration_idempotent c7Hash c7Type c7Props c7Val c7Type c7Props
    { } c7Obj c7Obj List.nodup_nil rfl rfl rfl rfl

end MarimoExec
